import Mathlib

/-!
# IOR DAOS backend (`src/aiori-DAOS.c`): handle coordination and transfer contract

A shallow embedding of the DAOS array backend of IOR.  Every function of the C
file that takes part in the lifecycle (`HandleDistribute`, `DAOS_Init`,
`DAOS_Fini`, `gen_oid`, `DAOS_Create`, `DAOS_Access`, `DAOS_Open`, `DAOS_Xfer`,
`DAOS_Close`, `DAOS_Delete`, `DAOS_Fsync`, `DAOS_GetFileSize`) is a program in
a small state/trace/abort monad:

* the file-scope variables `poh`, `coh`, `aoh`, `objectClass`,
  `daos_initialized` are the fields of `Globals`;
* every call into the storage engine and every MPI collective is appended to a
  trace of `Event`s, an engine call together with the status it returned;
* what the engine and the process group answer is an explicit input (an
  environment record per function), so a theorem quantifies over every answer;
* `MPI_Abort` ends the program: the result is `Res.abort`.

Byte counts, offsets and sizes are 64-bit quantities that the code only copies;
they are natural numbers here.  Status codes are integers.  Diagnostic output
(`INFO`, `fprintf`) and the release of memory are not part of the model.
-/

namespace IorDaos

/-! ## Data types of the DAOS client interface -/

/-- The C `daos_handle_t`: an opaque handle, a single 64-bit cookie. -/
structure daos_handle_t where
  cookie : Nat
  deriving DecidableEq, Repr

/-- The C `daos_obj_id_t`: a 128-bit object identifier. -/
structure daos_obj_id_t where
  lo : Nat
  hi : Nat
  deriving DecidableEq, Repr

/-- The C `enum handleType`. -/
inductive handleType where
  | POOL_HANDLE
  | CONT_HANDLE
  | ARRAY_HANDLE
  deriving DecidableEq, Repr

/-- The C `d_iov_t`: a buffer, its capacity and the length of the data in it.
The type of `iov_buf` is the view of the memory the code needs. -/
structure d_iov_t (β : Type) where
  iov_buf : β
  iov_buf_len : Nat
  iov_len : Nat
  deriving DecidableEq, Repr

/-- The `d_iov_t global` of `HandleDistribute`: `none` is the `NULL` buffer,
`some bs` an allocated buffer holding the bytes `bs`. -/
abbrev Glob := d_iov_t (Option (List Nat))

/-- The C `daos_range_t`. -/
structure daos_range_t where
  rg_idx : Nat
  rg_len : Nat
  deriving DecidableEq, Repr

/-- The C `daos_array_iod_t`: `arr_rgs` points to `arr_nr` ranges. -/
structure daos_array_iod_t where
  arr_nr : Nat
  arr_rgs : List daos_range_t
  deriving DecidableEq, Repr

/-- The C `d_sg_list_t`: `sg_iovs` points to `sg_nr` segments; the buffer of a
segment is the address of the caller's memory. -/
structure d_sg_list_t where
  sg_nr : Nat
  sg_iovs : List (d_iov_t Nat)
  deriving DecidableEq, Repr

/-- The open flags `DAOS_OO_RO` and `DAOS_OO_RW`. -/
inductive OpenMode where
  | DAOS_OO_RO
  | DAOS_OO_RW
  deriving DecidableEq, Repr

/-- The transfer direction handed to `xfer` (`WRITE`, `READ` of `iordef.h`,
and any other integer, for which the code takes the read branch). -/
inductive Access where
  | WRITE
  | READ
  | other (n : Nat)
  deriving DecidableEq, Repr

/-- The C `DAOS_options_t`; a `char *` option is `none` when `NULL`, and the
flag `destroy` is its truth value. -/
structure DAOS_options_t where
  pool : Option String
  svcl : Option String
  group : Option String
  cont : Option String
  chunk_size : Nat
  destroy : Bool
  oclass : Option String
  deriving DecidableEq, Repr

/-- The part of the DAOS client library the backend uses as pure functions and
constants: the hash `d_hash_murmur64 key length seed`, the identifier
normalisation `daos_array_generate_id oid cid add_attr args`, the class lookup
`daos_oclass_name2id`, and the constants `OC_SX`, `OC_UNKNOWN`,
`DER_NONEXIST`.  They are declared in headers outside this file and are
parameters of the development. -/
structure Daos where
  d_hash_murmur64 : List Nat → Nat → Nat → Nat
  daos_array_generate_id : daos_obj_id_t → Nat → Bool → Nat → daos_obj_id_t
  daos_oclass_name2id : String → Nat
  OC_SX : Nat
  OC_UNKNOWN : Nat
  DER_NONEXIST : Int

/-! ## Calls, events, and the program monad -/

/-- A call into the storage engine, with the arguments the backend passes. -/
inductive Call where
  | daos_init
  | daos_pool_connect (uuid : Nat) (group : Option String) (svcl : Nat)
  | daos_cont_open (poh : daos_handle_t) (uuid : Nat)
  | daos_cont_create (poh : daos_handle_t) (uuid : Nat)
  | daos_pool_local2global (h : daos_handle_t) (glob : Glob)
  | daos_cont_local2global (h : daos_handle_t) (glob : Glob)
  | daos_array_local2global (h : daos_handle_t) (glob : Glob)
  | daos_pool_global2local (glob : Glob)
  | daos_cont_global2local (poh : daos_handle_t) (glob : Glob)
  | daos_array_global2local (coh : daos_handle_t) (glob : Glob) (mode : Nat)
  | daos_array_create (coh : daos_handle_t) (oid : daos_obj_id_t)
      (cell_size : Nat) (chunk_size : Nat)
  | daos_array_open (coh : daos_handle_t) (oid : daos_obj_id_t) (mode : OpenMode)
  | daos_array_close (oh : daos_handle_t)
  | daos_array_destroy (oh : daos_handle_t)
  | daos_array_get_size (oh : daos_handle_t)
  | daos_array_write (oh : daos_handle_t) (iod : daos_array_iod_t) (sgl : d_sg_list_t)
  | daos_array_read (oh : daos_handle_t) (iod : daos_array_iod_t) (sgl : d_sg_list_t)
  | daos_cont_close (coh : daos_handle_t)
  | daos_cont_destroy (poh : daos_handle_t) (uuid : Nat) (force : Nat)
  | daos_pool_disconnect (poh : daos_handle_t)
  | daos_fini
  deriving DecidableEq, Repr

/-- What a process does that is visible outside it, and the entry into
`HandleDistribute` (recorded so that an invocation can be told apart from its
effects).  A broadcast records the value its buffer holds once the collective
is over (on the root the value sent, elsewhere the value received). -/
inductive Event where
  | engine (c : Call) (rc : Int)
  | enter_HandleDistribute (type : handleType)
  | MPI_Bcast_len (root : Nat) (value : Nat)
  | MPI_Bcast_buf (root : Nat) (count : Nat) (buf : Option (List Nat))
  | MPI_Bcast_size (root : Nat) (value : Nat)
  | MPI_Bcast_rc (root : Nat) (value : Int)
  | MPI_Barrier
  | MPI_Abort
  deriving DecidableEq, Repr

/-- The file-scope variables of `aiori-DAOS.c`. -/
structure Globals where
  poh : daos_handle_t
  coh : daos_handle_t
  aoh : daos_handle_t
  objectClass : Nat
  daos_initialized : Bool
  deriving DecidableEq, Repr

/-- The state of a process while a backend function runs. -/
structure St where
  g : Globals
  trace : List Event
  deriving DecidableEq, Repr

/-- How a backend function ends: it returns `a`, or the run was aborted. -/
inductive Res (α : Type) where
  | ret (a : α) (s : St)
  | abort (s : St)
  deriving DecidableEq, Repr

/-- The state a run ends in. -/
def Res.st {α : Type} : Res α → St
  | .ret _ s => s
  | .abort s => s

/-- The value a run returns, when it returns. -/
def Res.val {α : Type} : Res α → Option α
  | .ret a _ => some a
  | .abort _ => none

/-- Whether the run was aborted. -/
def Res.aborted {α : Type} : Res α → Bool
  | .ret _ _ => false
  | .abort _ => true

/-- The same result with `pre` put in front of the trace. -/
def Res.prepend {α : Type} (pre : List Event) : Res α → Res α
  | .ret a s => .ret a { g := s.g, trace := pre ++ s.trace }
  | .abort s => .abort { g := s.g, trace := pre ++ s.trace }

/-- A backend function: state in, result out. -/
def Prog (α : Type) : Type := St → Res α

/-- Sequencing: an aborted run runs nothing more. -/
def Prog.bind {α β : Type} (m : Prog α) (f : α → Prog β) : Prog β :=
  fun s => match m s with
    | .ret a s1 => f a s1
    | .abort s1 => .abort s1

instance : Monad Prog where
  pure a := fun s => .ret a s
  bind := Prog.bind

/-- Append an event to the trace. -/
def emit (e : Event) : Prog Unit :=
  fun s => .ret () { s with trace := s.trace ++ [e] }

/-- Read the file-scope variables. -/
def getG : Prog Globals := fun s => .ret s.g s

/-- Update the file-scope variables. -/
def modifyG (f : Globals → Globals) : Prog Unit :=
  fun s => .ret () { s with g := f s.g }

/-- The call `MPI_Abort(MPI_COMM_WORLD, -1)`: the process group is terminated. -/
def MPI_Abort {α : Type} : Prog α :=
  fun s => .abort { s with trace := s.trace ++ [Event.MPI_Abort] }

/-- The macro `DCHECK(rc, ...)`: a negative status aborts the group. -/
def DCHECK (rc : Int) : Prog Unit :=
  if rc < 0 then MPI_Abort else pure ()

/-- The macro `GERR(...)`: print and `MPI_Abort`. -/
def GERR {α : Type} : Prog α := MPI_Abort

/-- Modelled from the spec: the macro `MPI_CHECK` of `iordef.h` (not part of
this file): a collective whose status is not `MPI_SUCCESS` (0) is a fatal error
that aborts the group. -/
def MPI_CHECK (status : Int) : Prog Unit :=
  if status ≠ 0 then MPI_Abort else pure ()

/-- Modelled from the spec: the macro `ERR` of `iordef.h` (not part of this
file): report and abort the group. -/
def ERR {α : Type} : Prog α := MPI_Abort

/-- The globals `rank` and `hints->filePerProc` the harness provides. -/
structure Ctx where
  rank : Nat
  filePerProc : Bool
  deriving DecidableEq, Repr

/-! ## `HandleDistribute` -/

/-- What the engine, the allocator and the process group answer during one
`HandleDistribute`: the serialisation functions of the three handle kinds
(status and the `d_iov_t` or handle they leave behind), `malloc`, the status of
the two broadcasts and what they deliver on a process that is not the root. -/
structure HDEnv where
  daos_pool_local2global : daos_handle_t → Glob → Int × Glob
  daos_cont_local2global : daos_handle_t → Glob → Int × Glob
  daos_array_local2global : daos_handle_t → Glob → Int × Glob
  daos_pool_global2local : Glob → Int × daos_handle_t
  daos_cont_global2local : daos_handle_t → Glob → Int × daos_handle_t
  daos_array_global2local : daos_handle_t → Glob → Nat → Int × daos_handle_t
  malloc : Nat → Option (List Nat)
  bcast_len_status : Int
  bcast_len_in : Nat
  bcast_buf_status : Int
  bcast_buf_in : List Nat

/-- Which of `daos_pool_local2global`, `daos_cont_local2global`,
`daos_array_local2global` the chain `if (type == POOL_HANDLE) ... else if
(type == CONT_HANDLE) ... else ...` calls on `(*handle, &global)`. -/
def l2gCall (type : handleType) (handle : daos_handle_t) (glob : Glob) : Call :=
  if type = .POOL_HANDLE then .daos_pool_local2global handle glob
  else if type = .CONT_HANDLE then .daos_cont_local2global handle glob
  else .daos_array_local2global handle glob

/-- What that call answers: the status and the `d_iov_t` it leaves behind. -/
def l2gReply (E : HDEnv) (type : handleType) (handle : daos_handle_t) (glob : Glob) :
    Int × Glob :=
  if type = .POOL_HANDLE then E.daos_pool_local2global handle glob
  else if type = .CONT_HANDLE then E.daos_cont_local2global handle glob
  else E.daos_array_local2global handle glob

/-- Which of the `global2local` functions the chain calls: the pool handle is
rebuilt from the blob alone, the container handle under `poh`, the array handle
under `coh` with mode 0. -/
def g2lCall (type : handleType) (g : Globals) (glob : Glob) : Call :=
  if type = .POOL_HANDLE then .daos_pool_global2local glob
  else if type = .CONT_HANDLE then .daos_cont_global2local g.poh glob
  else .daos_array_global2local g.coh glob 0

/-- What that call answers: the status and the handle it leaves in `*handle`. -/
def g2lReply (E : HDEnv) (type : handleType) (g : Globals) (glob : Glob) :
    Int × daos_handle_t :=
  if type = .POOL_HANDLE then E.daos_pool_global2local glob
  else if type = .CONT_HANDLE then E.daos_cont_global2local g.poh glob
  else E.daos_array_global2local g.coh glob 0

/-- The serialisation step on the root: the call chosen by `type`, then
`DCHECK(rc, ...)`. -/
def local2global (E : HDEnv) (type : handleType) (handle : daos_handle_t)
    (glob : Glob) : Prog Glob := do
  emit (.engine (l2gCall type handle glob) (l2gReply E type handle glob).1)
  DCHECK (l2gReply E type handle glob).1
  pure (l2gReply E type handle glob).2

/-- The deserialisation step off the root: the call chosen by `type`, then
`DCHECK(rc, ...)`. -/
def global2local (E : HDEnv) (type : handleType) (glob : Glob) :
    Prog daos_handle_t := do
  let g ← getG
  emit (.engine (g2lCall type g glob) (g2lReply E type g glob).1)
  DCHECK (g2lReply E type g glob).1
  pure (g2lReply E type g glob).2

/-- The function `HandleDistribute(daos_handle_t *handle, enum handleType type)`:
the handle `*handle` goes in, the value of `*handle` at return comes out. -/
def HandleDistribute (cx : Ctx) (E : HDEnv) (handle : daos_handle_t)
    (type : handleType) : Prog daos_handle_t := do
  emit (.enter_HandleDistribute type)
  let global0 : Glob := { iov_buf := none, iov_buf_len := 0, iov_len := 0 }
  -- Get the global handle size.
  let global1 ← if cx.rank = 0 then local2global E type handle global0
                else pure global0
  -- MPI_Bcast(&global.iov_buf_len, 1, MPI_UINT64_T, 0, MPI_COMM_WORLD)
  let len := if cx.rank = 0 then global1.iov_buf_len else E.bcast_len_in
  emit (.MPI_Bcast_len 0 len)
  MPI_CHECK E.bcast_len_status
  -- global.iov_len = global.iov_buf_len; global.iov_buf = malloc(...)
  let global2 : Glob := { iov_buf := E.malloc len, iov_buf_len := len, iov_len := len }
  if global2.iov_buf = none then ERR
  let global3 ← if cx.rank = 0 then local2global E type handle global2
                else pure global2
  -- MPI_Bcast(global.iov_buf, global.iov_buf_len, MPI_BYTE, 0, MPI_COMM_WORLD)
  let global4 : Glob :=
    if cx.rank = 0 then global3 else { global3 with iov_buf := some E.bcast_buf_in }
  emit (.MPI_Bcast_buf 0 global4.iov_buf_len global4.iov_buf)
  MPI_CHECK E.bcast_buf_status
  if cx.rank ≠ 0 then global2local E type global4 else pure handle

/-! ## `DAOS_Init` and `DAOS_Fini` -/

/-- What the libraries answer during `DAOS_Init`: `daos_init`, the two
`uuid_parse` calls (status and the uuid), `daos_rank_list_parse` (`none` is
`NULL`), `daos_pool_connect`, the first `daos_cont_open`, `daos_cont_create`,
the second `daos_cont_open` (status and the handle left in `poh` or `coh`), and
the two handle distributions. -/
structure InitEnv where
  daos_init : Int
  uuid_parse_pool : Int × Nat
  daos_rank_list_parse : Option Nat
  daos_pool_connect : Int × daos_handle_t
  uuid_parse_cont : Int × Nat
  daos_cont_open : Int × daos_handle_t
  daos_cont_create : Int
  daos_cont_open_retry : Int × daos_handle_t
  hd_pool : HDEnv
  hd_cont : HDEnv

/-- The block `if (rank == 0) { ... }` of `DAOS_Init`: connect to the pool,
then open the container, creating it when the open reports `-DER_NONEXIST`. -/
def DAOS_Init_rank0 (D : Daos) (E : InitEnv) (o : DAOS_options_t) : Prog Unit := do
  DCHECK E.uuid_parse_pool.1
  match E.daos_rank_list_parse with
  | none => ERR
  | some svcl =>
    emit (.engine (.daos_pool_connect E.uuid_parse_pool.2 o.group svcl) E.daos_pool_connect.1)
    modifyG (fun g => { g with poh := E.daos_pool_connect.2 })
    DCHECK E.daos_pool_connect.1
    DCHECK E.uuid_parse_cont.1
    let g ← getG
    emit (.engine (.daos_cont_open g.poh E.uuid_parse_cont.2) E.daos_cont_open.1)
    modifyG (fun g => { g with coh := E.daos_cont_open.2 })
    -- If NOEXIST we create it
    let rc ← if E.daos_cont_open.1 = -D.DER_NONEXIST then do
        emit (.engine (.daos_cont_create g.poh E.uuid_parse_cont.2) E.daos_cont_create)
        if E.daos_cont_create = 0 then do
          emit (.engine (.daos_cont_open g.poh E.uuid_parse_cont.2) E.daos_cont_open_retry.1)
          modifyG (fun g => { g with coh := E.daos_cont_open_retry.2 })
          pure E.daos_cont_open_retry.1
        else pure E.daos_cont_create
      else pure E.daos_cont_open.1
    DCHECK rc

/-- The function `DAOS_Init(aiori_mod_opt_t *options)`. -/
def DAOS_Init (D : Daos) (cx : Ctx) (E : InitEnv) (o : DAOS_options_t) : Prog Unit := do
  let g ← getG
  if g.daos_initialized then pure ()
  else if o.pool = none ∨ o.svcl = none ∨ o.cont = none then pure ()
  else do
    match o.oclass with
    | some name =>
      modifyG (fun g => { g with objectClass := D.daos_oclass_name2id name })
      if D.daos_oclass_name2id name = D.OC_UNKNOWN then GERR
    | none => pure ()
    emit (.engine .daos_init E.daos_init)
    if E.daos_init ≠ 0 then DCHECK E.daos_init
    if cx.rank = 0 then DAOS_Init_rank0 D E o
    let g ← getG
    let poh ← HandleDistribute cx E.hd_pool g.poh .POOL_HANDLE
    modifyG (fun g => { g with poh := poh })
    let g ← getG
    let coh ← HandleDistribute cx E.hd_cont g.coh .CONT_HANDLE
    modifyG (fun g => { g with coh := coh })
    modifyG (fun g => { g with aoh := { g.aoh with cookie := 0 } })
    modifyG (fun g => { g with daos_initialized := true })

/-- What the engine and the group answer during `DAOS_Fini`. -/
structure FiniEnv where
  daos_cont_close : Int
  uuid_parse_cont : Nat
  daos_cont_destroy : Int
  bcast_rc_in : Int
  daos_pool_disconnect : Int
  barrier_status : Int
  daos_fini : Int

/-- The function `DAOS_Fini(aiori_mod_opt_t *options)`. -/
def DAOS_Fini (cx : Ctx) (E : FiniEnv) (o : DAOS_options_t) : Prog Unit := do
  let g ← getG
  if !g.daos_initialized then pure ()
  else do
    emit .MPI_Barrier
    emit (.engine (.daos_cont_close g.coh) E.daos_cont_close)
    if E.daos_cont_close ≠ 0 then do
      DCHECK E.daos_cont_close
      MPI_Abort
    emit .MPI_Barrier
    if o.destroy then do
      let rc ← if cx.rank = 0 then do
          emit (.engine (.daos_cont_destroy g.poh E.uuid_parse_cont 1) E.daos_cont_destroy)
          pure E.daos_cont_destroy
        else pure E.daos_cont_close
      -- MPI_Bcast(&rc, 1, MPI_INT, 0, MPI_COMM_WORLD)
      let rc := if cx.rank = 0 then rc else E.bcast_rc_in
      emit (.MPI_Bcast_rc 0 rc)
      if rc ≠ 0 then do
        if cx.rank = 0 then DCHECK rc
        MPI_Abort
    emit (.engine (.daos_pool_disconnect g.poh) E.daos_pool_disconnect)
    DCHECK E.daos_pool_disconnect
    emit .MPI_Barrier
    MPI_CHECK E.barrier_status
    emit (.engine .daos_fini E.daos_fini)
    DCHECK E.daos_fini
    modifyG (fun g => { g with daos_initialized := false })

/-! ## Object identity -/

/-- The macro `IOR_DAOS_MUR_SEED`. -/
def IOR_DAOS_MUR_SEED : Nat := 0xDEAD10CC

/-- The C `strlen`: the number of bytes before the first zero byte. -/
def strlen (name : List Nat) : Nat := (name.takeWhile (fun b => b != 0)).length

/-- The function `gen_oid(const char *name, daos_obj_id_t *oid)`; `name` is the
memory `name` points to, and the result is `*oid` at return.  Of the file-scope
variables only `objectClass` is read. -/
def gen_oid (D : Daos) (g : Globals) (name : List Nat) : daos_obj_id_t :=
  let oid : daos_obj_id_t :=
    { lo := D.d_hash_murmur64 (name.take (strlen name)) (strlen name) IOR_DAOS_MUR_SEED,
      hi := 0 }
  D.daos_array_generate_id oid g.objectClass true 0

/-! ## The file operations -/

/-- What `daos_array_open` answers: status, the cell and chunk size it
stores, and the handle it leaves in `aoh`. -/
structure OpenReply where
  rc : Int
  cell_size : Nat
  chunk_size : Nat
  oh : daos_handle_t
  deriving DecidableEq, Repr

/-- What the engine and the group answer during `DAOS_Create`. -/
structure CreateEnv where
  daos_array_create : Int × daos_handle_t
  hd : HDEnv

/-- The function `DAOS_Create(char *testFileName, int flags, aiori_mod_opt_t *param)`;
the descriptor returned is the address of `aoh`, here the handle it holds. -/
def DAOS_Create (D : Daos) (cx : Ctx) (E : CreateEnv) (o : DAOS_options_t)
    (testFileName : List Nat) : Prog daos_handle_t := do
  let g ← getG
  -- Convert file name into object ID
  let oid := gen_oid D g testFileName
  -- Create the array
  if cx.filePerProc ∨ cx.rank = 0 then do
    emit (.engine (.daos_array_create g.coh oid 1 o.chunk_size) E.daos_array_create.1)
    modifyG (fun g => { g with aoh := E.daos_array_create.2 })
    DCHECK E.daos_array_create.1
  -- Distribute the array handle if not FPP
  if ¬ cx.filePerProc then do
    let g ← getG
    let aoh ← HandleDistribute cx E.hd g.aoh .ARRAY_HANDLE
    modifyG (fun g => { g with aoh := aoh })
  let g ← getG
  pure g.aoh

/-- What the engine answers during `DAOS_Access`. -/
structure AccessEnv where
  daos_array_open : OpenReply
  daos_array_close : Int

/-- The function `DAOS_Access(const char *testFileName, int mode, aiori_mod_opt_t *param)`. -/
def DAOS_Access (D : Daos) (E : AccessEnv) (testFileName : List Nat) : Prog Int := do
  let g ← getG
  let oid := gen_oid D g testFileName
  emit (.engine (.daos_array_open g.coh oid .DAOS_OO_RO) E.daos_array_open.rc)
  modifyG (fun g => { g with aoh := E.daos_array_open.oh })
  if E.daos_array_open.rc ≠ 0 then pure E.daos_array_open.rc
  else do
    if E.daos_array_open.cell_size ≠ 1 then GERR
    let g ← getG
    emit (.engine (.daos_array_close g.aoh) E.daos_array_close)
    modifyG (fun g => { g with aoh := { g.aoh with cookie := 0 } })
    pure E.daos_array_close

/-- What the engine and the group answer during `DAOS_Open`. -/
structure OpenEnv where
  daos_array_open : OpenReply
  hd : HDEnv

/-- The function `DAOS_Open(char *testFileName, int flags, aiori_mod_opt_t *param)`. -/
def DAOS_Open (D : Daos) (cx : Ctx) (E : OpenEnv) (testFileName : List Nat) :
    Prog daos_handle_t := do
  let g ← getG
  let oid := gen_oid D g testFileName
  -- Open the array
  if cx.filePerProc ∨ cx.rank = 0 then do
    emit (.engine (.daos_array_open g.coh oid .DAOS_OO_RW) E.daos_array_open.rc)
    modifyG (fun g => { g with aoh := E.daos_array_open.oh })
    DCHECK E.daos_array_open.rc
    if E.daos_array_open.cell_size ≠ 1 then GERR
  -- Distribute the array handle if not FPP
  if ¬ cx.filePerProc then do
    let g ← getG
    let aoh ← HandleDistribute cx E.hd g.aoh .ARRAY_HANDLE
    modifyG (fun g => { g with aoh := aoh })
  let g ← getG
  pure g.aoh

/-- The function `DAOS_Xfer(int access, aiori_fd_t *file, IOR_size_t *buffer,
IOR_offset_t length, IOR_offset_t off, aiori_mod_opt_t *param)`; `rc` is the
status the engine reports for the transfer. -/
def DAOS_Xfer (rc : Int) (access : Access) (buffer : Nat) (length : Nat) (off : Nat) :
    Prog Nat := do
  let g ← getG
  -- set array location
  let rg : daos_range_t := { rg_len := length, rg_idx := off }
  let iod : daos_array_iod_t := { arr_nr := 1, arr_rgs := [rg] }
  -- set memory location
  let iov : d_iov_t Nat := { iov_buf := buffer, iov_buf_len := length, iov_len := length }
  let sgl : d_sg_list_t := { sg_nr := 1, sg_iovs := [iov] }
  if access = .WRITE then do
    emit (.engine (.daos_array_write g.aoh iod sgl) rc)
    DCHECK rc
  else do
    emit (.engine (.daos_array_read g.aoh iod sgl) rc)
    DCHECK rc
  pure length

/-- The function `DAOS_Close(aiori_fd_t *file, aiori_mod_opt_t *param)`; `rc` is
the status the engine reports for `daos_array_close`. -/
def DAOS_Close (rc : Int) : Prog Unit := do
  let g ← getG
  if !g.daos_initialized then GERR
  emit (.engine (.daos_array_close g.aoh) rc)
  DCHECK rc
  modifyG (fun g => { g with aoh := { g.aoh with cookie := 0 } })

/-- What the engine answers during `DAOS_Delete`. -/
structure DeleteEnv where
  daos_array_open : OpenReply
  daos_array_destroy : Int
  daos_array_close : Int

/-- The function `DAOS_Delete(char *testFileName, aiori_mod_opt_t *param)`. -/
def DAOS_Delete (D : Daos) (E : DeleteEnv) (testFileName : List Nat) : Prog Unit := do
  let g ← getG
  if !g.daos_initialized then GERR
  let oid := gen_oid D g testFileName
  -- open the array to verify it exists
  emit (.engine (.daos_array_open g.coh oid .DAOS_OO_RW) E.daos_array_open.rc)
  modifyG (fun g => { g with aoh := E.daos_array_open.oh })
  DCHECK E.daos_array_open.rc
  if E.daos_array_open.cell_size ≠ 1 then GERR
  let g ← getG
  emit (.engine (.daos_array_destroy g.aoh) E.daos_array_destroy)
  DCHECK E.daos_array_destroy
  emit (.engine (.daos_array_close g.aoh) E.daos_array_close)
  DCHECK E.daos_array_close
  modifyG (fun g => { g with aoh := { g.aoh with cookie := 0 } })

/-- The function `DAOS_Fsync(aiori_fd_t *file, aiori_mod_opt_t *param)`. -/
def DAOS_Fsync : Prog Unit := pure ()

/-- What the engine and the group answer during `DAOS_GetFileSize`:
`daos_array_get_size` gives a status and the size it stores; `size_uninit` is
what the local `size` holds before anything is stored in it; `bcast_size_in`
is what the broadcast delivers on a process that is not the root. -/
structure GetFileSizeEnv where
  daos_array_open : OpenReply
  daos_array_get_size : Int × Nat
  daos_array_close : Int
  size_uninit : Nat
  bcast_size_in : Nat
  deriving DecidableEq, Repr

/-- The function `DAOS_GetFileSize(aiori_mod_opt_t *param, char *testFileName)`. -/
def DAOS_GetFileSize (D : Daos) (cx : Ctx) (E : GetFileSizeEnv)
    (testFileName : List Nat) : Prog Nat := do
  let g ← getG
  if !g.daos_initialized then GERR
  let oid := gen_oid D g testFileName
  -- open the array to verify it exists
  let size ← if cx.filePerProc ∨ cx.rank = 0 then do
      emit (.engine (.daos_array_open g.coh oid .DAOS_OO_RO) E.daos_array_open.rc)
      modifyG (fun g => { g with aoh := E.daos_array_open.oh })
      DCHECK E.daos_array_open.rc
      if E.daos_array_open.cell_size ≠ 1 then GERR
      let g ← getG
      emit (.engine (.daos_array_get_size g.aoh) E.daos_array_get_size.1)
      DCHECK E.daos_array_get_size.1
      emit (.engine (.daos_array_close g.aoh) E.daos_array_close)
      DCHECK E.daos_array_close
      modifyG (fun g => { g with aoh := { g.aoh with cookie := 0 } })
      pure E.daos_array_get_size.2
    else pure E.size_uninit
  if ¬ cx.filePerProc then do
    -- MPI_Bcast(&size, 1, MPI_LONG, 0, MPI_COMM_WORLD)
    let size1 := if cx.rank = 0 then size else E.bcast_size_in
    emit (.MPI_Bcast_size 0 size1)
    pure size1
  else pure size

/-! ## Sample inputs

Concrete libraries and answers on which the model is evaluated. -/

/-- A concrete stand-in for the library functions: the hash adds the bytes to
the seed, the normalisation stores class and flag in the high word. -/
def sampleDaos : Daos where
  d_hash_murmur64 key len seed := key.sum + len + seed
  daos_array_generate_id oid cid add_attr args :=
    { lo := oid.lo, hi := oid.hi + 4 * cid + (if add_attr then 2 else 0) + args }
  daos_oclass_name2id name := name.length
  OC_SX := 214
  OC_UNKNOWN := 0
  DER_NONEXIST := 1005

/-- A serialisation that always succeeds: a handle becomes the eight-byte
blob `[cookie, 0, 0, 0, 0, 0, 0, 0]` and back. -/
def sampleHD : HDEnv where
  daos_pool_local2global h glob :=
    (0, { iov_buf := glob.iov_buf.map (fun _ => h.cookie :: List.replicate 7 0),
          iov_buf_len := 8, iov_len := 8 })
  daos_cont_local2global h glob :=
    (0, { iov_buf := glob.iov_buf.map (fun _ => h.cookie :: List.replicate 7 0),
          iov_buf_len := 8, iov_len := 8 })
  daos_array_local2global h glob :=
    (0, { iov_buf := glob.iov_buf.map (fun _ => h.cookie :: List.replicate 7 0),
          iov_buf_len := 8, iov_len := 8 })
  daos_pool_global2local glob := (0, { cookie := ((glob.iov_buf.getD []).headD 0) })
  daos_cont_global2local _ glob := (0, { cookie := ((glob.iov_buf.getD []).headD 0) })
  daos_array_global2local _ glob _ := (0, { cookie := ((glob.iov_buf.getD []).headD 0) })
  malloc n := some (List.replicate n 0)
  bcast_len_status := 0
  bcast_len_in := 8
  bcast_buf_status := 0
  bcast_buf_in := [77, 0, 0, 0, 0, 0, 0, 0]

/-- The file-scope variables of an initialised process with no array open. -/
def sampleGlobals : Globals :=
  { poh := { cookie := 11 }, coh := { cookie := 22 }, aoh := { cookie := 0 },
    objectClass := 214, daos_initialized := true }

/-- The state a function of an initialised process starts in. -/
def sampleSt : St := { g := sampleGlobals, trace := [] }

/-- The trace of a distribution of an array handle on a rank other than 0
with the answers of `sampleHD`. -/
def sampleHDTrace : List Event :=
  [.enter_HandleDistribute .ARRAY_HANDLE, .MPI_Bcast_len 0 8,
   .MPI_Bcast_buf 0 8 (some [77, 0, 0, 0, 0, 0, 0, 0]),
   .engine (.daos_array_global2local ⟨22⟩ ⟨some [77, 0, 0, 0, 0, 0, 0, 0], 8, 8⟩ 0) 0]

/-- Options naming a pool, a service list and a container, with the default
chunk size of 1 MiB. -/
def sampleOpts : DAOS_options_t :=
  { pool := some "pool", svcl := some "0", group := none, cont := some "cont",
    chunk_size := 1048576, destroy := false, oclass := none }

/-- The file name `"t"` as the bytes a `char *` points to. -/
def sampleName : List Nat := [116, 0]

/-- A `daos_array_create` that succeeds and leaves the handle 33. -/
def sampleCreateEnv : CreateEnv := { daos_array_create := (0, ⟨33⟩), hd := sampleHD }

/-- A `daos_array_create` that fails with status -1. -/
def failingCreateEnv : CreateEnv := { daos_array_create := (-1, ⟨0⟩), hd := sampleHD }

/-- A `daos_array_open` that succeeds on an object of cell size 1 and chunk
size 1 MiB and leaves the handle 44. -/
def sampleOpenReply : OpenReply := { rc := 0, cell_size := 1, chunk_size := 1048576, oh := ⟨44⟩ }

/-- A `daos_array_open` that succeeds on an object whose cell size is 2. -/
def badCellOpenReply : OpenReply := { rc := 0, cell_size := 2, chunk_size := 1048576, oh := ⟨44⟩ }

/-- A `daos_array_open` that fails with status -1005. -/
def failingOpenReply : OpenReply := { rc := -1005, cell_size := 0, chunk_size := 0, oh := ⟨0⟩ }

/-- The answers to a `DAOS_Open` that succeeds. -/
def sampleOpenEnv : OpenEnv := { daos_array_open := sampleOpenReply, hd := sampleHD }

/-- The answers to a `DAOS_Init` whose container does not exist yet: the first
open reports `-DER_NONEXIST`, the create and the second open succeed. -/
def sampleInitEnv : InitEnv :=
  { daos_init := 0, uuid_parse_pool := (0, 1001), daos_rank_list_parse := some 1,
    daos_pool_connect := (0, ⟨11⟩), uuid_parse_cont := (0, 2002),
    daos_cont_open := (-1005, ⟨0⟩), daos_cont_create := 0,
    daos_cont_open_retry := (0, ⟨22⟩), hd_pool := sampleHD, hd_cont := sampleHD }

/-- The same, but the container exists and the first open fails with -1. -/
def failingInitEnv : InitEnv :=
  { sampleInitEnv with daos_cont_open := (-1, ⟨0⟩) }

/-- The file-scope variables before `DAOS_Init`: zeroed handles, the default
object class. -/
def initialGlobals (D : Daos) : Globals :=
  { poh := ⟨0⟩, coh := ⟨0⟩, aoh := ⟨0⟩, objectClass := D.OC_SX, daos_initialized := false }

/-- The answers to a `DAOS_Access` whose open fails with -1005. -/
def failingAccessEnv : AccessEnv :=
  { daos_array_open := failingOpenReply, daos_array_close := 0 }

/-- The answers to a `DAOS_Delete` whose destroy fails with -1. -/
def failingDeleteEnv : DeleteEnv :=
  { daos_array_open := sampleOpenReply, daos_array_destroy := -1, daos_array_close := 0 }

/-- The answers to a `DAOS_Delete` on an object whose cell size is 2; no call
reports a failure. -/
def badCellDeleteEnv : DeleteEnv :=
  { daos_array_open := badCellOpenReply, daos_array_destroy := 0, daos_array_close := 0 }

/-- The answers to a `DAOS_GetFileSize` whose calls succeed on an object of
4096 bytes; a rank that is not the root receives 4096 from the broadcast. -/
def sampleGetFileSizeEnv : GetFileSizeEnv :=
  { daos_array_open := sampleOpenReply, daos_array_get_size := (0, 4096),
    daos_array_close := 0, size_uninit := 123456, bcast_size_in := 4096 }

/-- The answers to a `DAOS_GetFileSize` whose open fails with -1005. -/
def failingGetFileSizeEnv : GetFileSizeEnv :=
  { sampleGetFileSizeEnv with daos_array_open := failingOpenReply }

/-- The value a process puts into, or takes out of, the size broadcast of
`DAOS_GetFileSize`; `none` when its trace has no such broadcast. -/
def sizeBroadcast (tr : List Event) : Option Nat :=
  tr.findSome? (fun e => match e with
    | .MPI_Bcast_size _ v => some v
    | _ => none)

/-- The answers to a `DAOS_Delete` whose calls all succeed. -/
def sampleDeleteEnv : DeleteEnv :=
  { daos_array_open := sampleOpenReply, daos_array_destroy := 0, daos_array_close := 0 }

/-- File-scope variables that differ from `sampleGlobals` in everything but the
object class: other handles, not initialised. -/
def otherGlobals : Globals :=
  { poh := { cookie := 5 }, coh := { cookie := 6 }, aoh := { cookie := 7 },
    objectClass := 214, daos_initialized := false }

/-- The answers to a `DAOS_Fini` whose `daos_cont_close` fails with -1. -/
def failingFiniEnv : FiniEnv :=
  { daos_cont_close := -1, uuid_parse_cont := 2002, daos_cont_destroy := 0,
    bcast_rc_in := 0, daos_pool_disconnect := 0, barrier_status := 0, daos_fini := 0 }

/-- A serialisation whose first `daos_array_local2global` fails with -1. -/
def failingHD : HDEnv :=
  { sampleHD with daos_array_local2global := fun _ glob => (-1, glob) }

/-- The answers to a `DAOS_Open` whose open succeeds and whose distribution
fails on the root. -/
def failingOpenEnv : OpenEnv := { daos_array_open := sampleOpenReply, hd := failingHD }

/-- File-scope variables of a process that is not initialised. -/
def uninitGlobals : Globals := { sampleGlobals with daos_initialized := false }

/-- The trace of a distribution of the array handle 5 on rank 0 with the
answers of `sampleHD`. -/
def sampleRootTrace : List Event :=
  [.enter_HandleDistribute .ARRAY_HANDLE,
   .engine (.daos_array_local2global ⟨5⟩ ⟨none, 0, 0⟩) 0,
   .MPI_Bcast_len 0 8,
   .engine (.daos_array_local2global ⟨5⟩ ⟨some [0, 0, 0, 0, 0, 0, 0, 0], 8, 8⟩) 0,
   .MPI_Bcast_buf 0 8 (some [5, 0, 0, 0, 0, 0, 0, 0])]

/-- The ranks below `P` that satisfy `p`. -/
def ranksThat (P : Nat) (p : Nat → Bool) : List Nat := (List.range P).filter p

/-- The events of a trace that are engine calls. -/
def engineCalls (tr : List Event) : List Event :=
  tr.filter (fun e => match e with
    | .engine _ _ => true
    | _ => false)

/-- The object identifier an event addresses, for the calls that take one. -/
def Event.oid? : Event → Option daos_obj_id_t
  | .engine (.daos_array_create _ oid _ _) _ => some oid
  | .engine (.daos_array_open _ oid _) _ => some oid
  | _ => none

/-- The object identifiers the calls of a trace address. -/
def oidsAddressed (tr : List Event) : List daos_obj_id_t := tr.filterMap Event.oid?

/-- The events one `HandleDistribute` adds to the trace. -/
def hdTrace (cx : Ctx) (E : HDEnv) (handle : daos_handle_t) (type : handleType)
    (g : Globals) : List Event :=
  (HandleDistribute cx E handle type { g := g, trace := [] }).st.trace

/-- The handle one `HandleDistribute` leaves in `*handle`; `none` when it aborts. -/
def hdVal (cx : Ctx) (E : HDEnv) (handle : daos_handle_t) (type : handleType)
    (g : Globals) : Option daos_handle_t :=
  (HandleDistribute cx E handle type { g := g, trace := [] }).val

/-- Whether an event is a `daos_array_create` call. -/
def Event.isArrayCreate : Event → Bool
  | .engine (.daos_array_create _ _ _ _) _ => true
  | _ => false

/-- Whether an event is a `daos_array_open` call. -/
def Event.isArrayOpen : Event → Bool
  | .engine (.daos_array_open _ _ _) _ => true
  | _ => false

/-- Whether an event is a `daos_array_destroy` call. -/
def Event.isArrayDestroy : Event → Bool
  | .engine (.daos_array_destroy _) _ => true
  | _ => false

/-- Whether an event is a `daos_cont_open` call. -/
def Event.isContOpen : Event → Bool
  | .engine (.daos_cont_open _ _) _ => true
  | _ => false

/-- Whether an event is a `daos_cont_create` call. -/
def Event.isContCreate : Event → Bool
  | .engine (.daos_cont_create _ _) _ => true
  | _ => false

/-- Whether an event is a `daos_cont_open` or a `daos_cont_create` call. -/
def Event.isContBootstrap (e : Event) : Bool := e.isContOpen || e.isContCreate

/-- Whether an event is the entry into `HandleDistribute`. -/
def Event.isEnterHD : Event → Bool
  | .enter_HandleDistribute _ => true
  | _ => false

/-- Whether an event is an engine call that reported a negative status. -/
def Event.isFailure : Event → Bool
  | .engine _ rc => decide (rc < 0)
  | _ => false

/-- Whether an event is an engine call that reported a negative status, other
than a `daos_cont_open` that reported `-DER_NONEXIST`. -/
def Event.isFailureBut (D : Daos) : Event → Bool
  | .engine (.daos_cont_open _ _) rc => decide (rc < 0) && !decide (rc = -D.DER_NONEXIST)
  | .engine _ rc => decide (rc < 0)
  | _ => false

/-- A scan of a trace: every content broadcast comes after a length broadcast
rooted at rank 0 (`seen` says whether one has already been passed). -/
def lenThenBuf : Bool → List Event → Bool
  | _, [] => true
  | seen, e :: rest =>
    match e with
    | .MPI_Bcast_len 0 _ => lenThenBuf true rest
    | .MPI_Bcast_buf _ _ _ => seen && lenThenBuf seen rest
    | _ => lenThenBuf seen rest

/-- The events the block `if (rank == 0) { ... }` of `DAOS_Init` adds. -/
def initRank0Trace (D : Daos) (E : InitEnv) (o : DAOS_options_t) (g : Globals) :
    List Event :=
  (DAOS_Init_rank0 D E o { g := g, trace := [] }).st.trace

/-- The file-scope variables that block leaves behind. -/
def initRank0Globals (D : Daos) (E : InitEnv) (o : DAOS_options_t) (g : Globals) :
    Globals :=
  (DAOS_Init_rank0 D E o { g := g, trace := [] }).st.g

/-- Whether that block runs to its end (`false` when it aborts). -/
def initRank0Ok (D : Daos) (E : InitEnv) (o : DAOS_options_t) (g : Globals) : Bool :=
  !(DAOS_Init_rank0 D E o { g := g, trace := [] }).aborted

/-- The status `DCHECK(rc, "Failed to create container")` of `DAOS_Init`
examines: that of the first `daos_cont_open`, or after `-DER_NONEXIST` that of
`daos_cont_create`, or after a create that returned 0 that of the second
`daos_cont_open`. -/
def bootstrapStatus (D : Daos) (E : InitEnv) : Int :=
  if E.daos_cont_open.1 = -D.DER_NONEXIST then
    (if E.daos_cont_create = 0 then E.daos_cont_open_retry.1 else E.daos_cont_create)
  else E.daos_cont_open.1

/-- The container calls of `DAOS_Init` on rank 0 once the first open is
reached: the open; after `-DER_NONEXIST` the create; after a create that
returned 0 the second open. -/
def bootstrapCalls (D : Daos) (E : InitEnv) : List Event :=
  Event.engine (.daos_cont_open E.daos_pool_connect.2 E.uuid_parse_cont.2) E.daos_cont_open.1
    :: (if E.daos_cont_open.1 = -D.DER_NONEXIST then
          Event.engine (.daos_cont_create E.daos_pool_connect.2 E.uuid_parse_cont.2)
              E.daos_cont_create
            :: (if E.daos_cont_create = 0 then
                  [Event.engine (.daos_cont_open E.daos_pool_connect.2 E.uuid_parse_cont.2)
                    E.daos_cont_open_retry.1]
                else [])
        else [])

/-- Whether `DAOS_Init` on rank 0 gets as far as the first `daos_cont_open`:
it is not yet initialised, pool, service list and container are given, the
object class (if given) is known, and `daos_init`, the two `uuid_parse`,
`daos_rank_list_parse` and `daos_pool_connect` have not failed. -/
def reachesContOpen (D : Daos) (E : InitEnv) (o : DAOS_options_t) (g : Globals) : Prop :=
  g.daos_initialized = false
  ∧ ¬ (o.pool = none ∨ o.svcl = none ∨ o.cont = none)
  ∧ o.oclass.map D.daos_oclass_name2id ≠ some D.OC_UNKNOWN
  ∧ 0 ≤ E.daos_init
  ∧ 0 ≤ E.uuid_parse_pool.1 ∧ E.daos_rank_list_parse ≠ none
  ∧ 0 ≤ E.daos_pool_connect.1 ∧ 0 ≤ E.uuid_parse_cont.1

instance (D : Daos) (E : InitEnv) (o : DAOS_options_t) (g : Globals) :
    Decidable (reachesContOpen D E o g) :=
  inferInstanceAs (Decidable (g.daos_initialized = false
    ∧ ¬ (o.pool = none ∨ o.svcl = none ∨ o.cont = none)
    ∧ o.oclass.map D.daos_oclass_name2id ≠ some D.OC_UNKNOWN
    ∧ 0 ≤ E.daos_init
    ∧ 0 ≤ E.uuid_parse_pool.1 ∧ E.daos_rank_list_parse ≠ none
    ∧ 0 ≤ E.daos_pool_connect.1 ∧ 0 ≤ E.uuid_parse_cont.1))

/-- A program is framed when it treats the trace as a log: run from any state,
it does what it does from the empty trace, after the events already logged. -/
def Framed {α : Type} (m : Prog α) : Prop :=
  ∀ s : St, m s = (m { g := s.g, trace := [] }).prepend s.trace

/-! ## Reasoning about programs -/

set_option maxHeartbeats 8000000


section ProgLemmas
variable {α β γ : Type}

@[simp]
theorem run_pure (a : α) (s : St) : (pure a : Prog α) s = .ret a s := rfl

@[simp]
theorem pure_bind_prog (a : α) (f : α → Prog β) : (pure a >>= f) = f a := rfl

@[simp]
theorem emit_bind (e : Event) (f : Unit → Prog β) (s : St) :
    (emit e >>= f) s = f () { s with trace := s.trace ++ [e] } := rfl

@[simp]
theorem emit_run (e : Event) (s : St) :
    emit e s = .ret () { s with trace := s.trace ++ [e] } := rfl

@[simp]
theorem getG_bind (f : Globals → Prog β) (s : St) : (getG >>= f) s = f s.g s := rfl

@[simp]
theorem modifyG_bind (h : Globals → Globals) (f : Unit → Prog β) (s : St) :
    (modifyG h >>= f) s = f () { s with g := h s.g } := rfl

@[simp]
theorem modifyG_run (h : Globals → Globals) (s : St) :
    modifyG h s = .ret () { s with g := h s.g } := rfl

@[simp]
theorem abort_bind (f : α → Prog β) (s : St) :
    ((MPI_Abort : Prog α) >>= f) s
      = .abort { s with trace := s.trace ++ [Event.MPI_Abort] } := rfl

@[simp]
theorem abort_bind_fun (f : α → Prog β) :
    ((MPI_Abort : Prog α) >>= f) = (MPI_Abort : Prog β) := rfl

@[simp]
theorem abort_run (s : St) :
    (MPI_Abort : Prog α) s = .abort { s with trace := s.trace ++ [Event.MPI_Abort] } := rfl

@[simp]
theorem ite_bind (c : Prop) [Decidable c] (m1 m2 : Prog α) (f : α → Prog β) :
    ((if c then m1 else m2) >>= f) = if c then (m1 >>= f) else (m2 >>= f) := by
  split <;> rfl

@[simp]
theorem ite_run (c : Prop) [Decidable c] (m1 m2 : Prog α) (s : St) :
    (if c then m1 else m2) s = if c then m1 s else m2 s := by
  split <;> rfl

@[simp]
theorem bind_assoc_prog (m : Prog α) (f : α → Prog β) (g : β → Prog γ) :
    ((m >>= f) >>= g) = m >>= (fun a => f a >>= g) := by
  funext s
  show Prog.bind (Prog.bind m f) g s = Prog.bind m (fun a => Prog.bind (f a) g) s
  unfold Prog.bind
  cases m s <;> rfl

end ProgLemmas

/-! ## Transfer -/

/-- Claim C2: for every direction, buffer, length and offset, `DAOS_Xfer` issues
exactly one engine call, `daos_array_write` when the access is `WRITE` and
`daos_array_read` otherwise, on a descriptor with exactly one range
(`rg_idx = off`, `rg_len = length`) and a scatter-gather list with exactly one
segment (`length` bytes at `buffer`); nothing follows that call except the
abort of a fatal status, so no synchronisation call is issued; it returns
exactly when the status is not negative, and the value returned is `length`. -/
theorem xfer_single_extent (rc : Int) (access : Access) (buffer length off : Nat)
    (g : Globals) :
    let iod : daos_array_iod_t :=
      { arr_nr := 1, arr_rgs := [{ rg_idx := off, rg_len := length }] }
    let sgl : d_sg_list_t :=
      { sg_nr := 1,
        sg_iovs := [{ iov_buf := buffer, iov_buf_len := length, iov_len := length }] }
    let call : Event :=
      .engine (if access = .WRITE then .daos_array_write g.aoh iod sgl
               else .daos_array_read g.aoh iod sgl) rc
    let r := DAOS_Xfer rc access buffer length off { g := g, trace := [] }
    engineCalls r.st.trace = [call]
    ∧ r.st.trace = call :: (if rc < 0 then [Event.MPI_Abort] else [])
    ∧ (r.aborted = true ↔ rc < 0)
    ∧ (∀ n s, r = .ret n s → n = length)
    ∧ (¬ rc < 0 → r.val = some length)
    ∧ r.st.g = g := by
  by_cases hw : access = .WRITE <;> by_cases hrc : rc < 0 <;>
    simp [DAOS_Xfer, DCHECK, hw, hrc, engineCalls, Res.st, Res.val, Res.aborted]

/-- Claim C2, evaluated: a write of 8 bytes at offset 16 whose status is 0
returns 8 after one `daos_array_write` on the extent `[16, 24)`. -/
theorem xfer_single_extent_witness :
    (DAOS_Xfer 0 .WRITE 4096 8 16 sampleSt).val = some 8
    ∧ (DAOS_Xfer 0 .WRITE 4096 8 16 sampleSt).st.trace
        = [.engine (.daos_array_write ⟨0⟩ ⟨1, [⟨16, 8⟩]⟩ ⟨1, [⟨4096, 8, 8⟩]⟩) 0] :=
  ⟨(xfer_single_extent 0 .WRITE 4096 8 16 sampleGlobals).2.2.2.2.1 (by decide),
   (xfer_single_extent 0 .WRITE 4096 8 16 sampleGlobals).2.1⟩

/-! ## Handle distribution -/

/-- `HandleDistribute` changes no file-scope variable and extends the trace by
`hdTrace`; it returns the handle `hdVal` or aborts. -/
theorem HandleDistribute_run (cx : Ctx) (E : HDEnv) (h : daos_handle_t) (t : handleType)
    (s : St) :
    HandleDistribute cx E h t s
      = match hdVal cx E h t s.g with
        | some h1 => .ret h1 { g := s.g, trace := s.trace ++ hdTrace cx E h t s.g }
        | none => .abort { g := s.g, trace := s.trace ++ hdTrace cx E h t s.g } := by
  by_cases h0 : cx.rank = 0 <;>
  simp only [hdVal, hdTrace, HandleDistribute, local2global, global2local, DCHECK, MPI_CHECK,
    ERR, GERR, bind_assoc_prog, pure_bind_prog, emit_bind, getG_bind, modifyG_bind,
    abort_bind, ite_bind, ite_run, abort_run, run_pure, emit_run, modifyG_run, h0,
    if_true, if_false, ne_eq, not_true_eq_false, not_false_eq_true] <;>
  split_ifs <;> simp [Res.st, Res.val]


/-- What the scan `lenThenBuf` establishes. -/
theorem lenThenBuf_sound (l : List Event) :
    ∀ (seen : Bool), lenThenBuf seen l = true →
    ∀ pre post root count buf, l = pre ++ Event.MPI_Bcast_buf root count buf :: post →
      seen = true ∨ ∃ v, Event.MPI_Bcast_len 0 v ∈ pre := by
  induction l with
  | nil =>
    intro seen _ pre post root count buf h
    simp at h
  | cons e rest ih =>
    intro seen hs pre post root count buf h
    cases pre with
    | nil =>
      simp only [List.nil_append, List.cons.injEq] at h
      obtain ⟨rfl, rfl⟩ := h
      simp only [lenThenBuf, Bool.and_eq_true] at hs
      exact Or.inl hs.1
    | cons p pre1 =>
      simp only [List.cons_append, List.cons.injEq] at h
      obtain ⟨rfl, hrest⟩ := h
      have key : ∀ seen1, lenThenBuf seen1 rest = true → (seen1 = true → seen = true ∨
          ∃ v, Event.MPI_Bcast_len 0 v ∈ e :: pre1) →
          seen = true ∨ ∃ v, Event.MPI_Bcast_len 0 v ∈ e :: pre1 := by
        intro seen1 h1 h2
        rcases ih seen1 h1 pre1 post root count buf hrest with h3 | ⟨v, hv⟩
        · exact h2 h3
        · exact Or.inr ⟨v, List.mem_cons_of_mem _ hv⟩
      cases e with
      | MPI_Bcast_len r v =>
        cases r with
        | zero =>
          exact Or.inr ⟨v, List.mem_cons_self _ _⟩
        | succ k =>
          simp only [lenThenBuf] at hs
          exact key seen hs Or.inl
      | MPI_Bcast_buf r c b =>
        simp only [lenThenBuf, Bool.and_eq_true] at hs
        exact Or.inl hs.1
      | engine c rc =>
        simp only [lenThenBuf] at hs
        exact key seen hs Or.inl
      | enter_HandleDistribute ty =>
        simp only [lenThenBuf] at hs
        exact key seen hs Or.inl
      | MPI_Bcast_size r v =>
        simp only [lenThenBuf] at hs
        exact key seen hs Or.inl
      | MPI_Bcast_rc r v =>
        simp only [lenThenBuf] at hs
        exact key seen hs Or.inl
      | MPI_Barrier =>
        simp only [lenThenBuf] at hs
        exact key seen hs Or.inl
      | MPI_Abort =>
        simp only [lenThenBuf] at hs
        exact key seen hs Or.inl

/-- The events of one `HandleDistribute`: it is entered once, it issues no
array, container or pool lifecycle call, it addresses no object, and an engine
call in it that reports a negative status aborts it. -/
theorem hdTrace_facts (cx : Ctx) (E : HDEnv) (h : daos_handle_t) (t : handleType)
    (g : Globals) :
    (hdTrace cx E h t g).filter Event.isEnterHD = [.enter_HandleDistribute t]
    ∧ (hdTrace cx E h t g).filter Event.isArrayCreate = []
    ∧ (hdTrace cx E h t g).filter Event.isArrayOpen = []
    ∧ (hdTrace cx E h t g).filter Event.isContOpen = []
    ∧ (hdTrace cx E h t g).filter Event.isContBootstrap = []
    ∧ oidsAddressed (hdTrace cx E h t g) = []
    ∧ ((hdTrace cx E h t g).any Event.isFailure = true → hdVal cx E h t g = none) := by
  cases t <;> by_cases h0 : cx.rank = 0 <;>
  simp only [hdVal, hdTrace, HandleDistribute, local2global, global2local, DCHECK, MPI_CHECK,
    ERR, GERR, bind_assoc_prog, pure_bind_prog, emit_bind, getG_bind, modifyG_bind,
    abort_bind, ite_bind, ite_run, abort_run, run_pure, emit_run, modifyG_run, h0,
    if_true, if_false, ne_eq, not_true_eq_false, not_false_eq_true] <;>
  split_ifs <;>
  simp_all [Res.st, Res.val, l2gCall, g2lCall, oidsAddressed, Event.oid?, Event.isEnterHD,
    Event.isArrayCreate, Event.isArrayOpen, Event.isContOpen, Event.isContCreate,
    Event.isContBootstrap, Event.isFailure, List.filter, List.filterMap]


theorem hdTrace_enter (cx : Ctx) (E : HDEnv) (h : daos_handle_t) (t : handleType)
    (g : Globals) :
    (hdTrace cx E h t g).filter Event.isEnterHD = [.enter_HandleDistribute t] :=
  (hdTrace_facts cx E h t g).1

theorem hdTrace_arrayCreate (cx : Ctx) (E : HDEnv) (h : daos_handle_t) (t : handleType)
    (g : Globals) : (hdTrace cx E h t g).filter Event.isArrayCreate = [] :=
  (hdTrace_facts cx E h t g).2.1

theorem hdTrace_arrayOpen (cx : Ctx) (E : HDEnv) (h : daos_handle_t) (t : handleType)
    (g : Globals) : (hdTrace cx E h t g).filter Event.isArrayOpen = [] :=
  (hdTrace_facts cx E h t g).2.2.1

theorem hdTrace_contOpen (cx : Ctx) (E : HDEnv) (h : daos_handle_t) (t : handleType)
    (g : Globals) : (hdTrace cx E h t g).filter Event.isContOpen = [] :=
  (hdTrace_facts cx E h t g).2.2.2.1

theorem hdTrace_contBootstrap (cx : Ctx) (E : HDEnv) (h : daos_handle_t) (t : handleType)
    (g : Globals) : (hdTrace cx E h t g).filter Event.isContBootstrap = [] :=
  (hdTrace_facts cx E h t g).2.2.2.2.1

theorem hdTrace_oids (cx : Ctx) (E : HDEnv) (h : daos_handle_t) (t : handleType)
    (g : Globals) : oidsAddressed (hdTrace cx E h t g) = [] :=
  (hdTrace_facts cx E h t g).2.2.2.2.2.1

theorem hdTrace_failure (cx : Ctx) (E : HDEnv) (h : daos_handle_t) (t : handleType)
    (g : Globals) (hf : (hdTrace cx E h t g).any Event.isFailure = true) :
    hdVal cx E h t g = none :=
  (hdTrace_facts cx E h t g).2.2.2.2.2.2 hf

theorem bind_run {α β : Type} (m : Prog α) (f : α → Prog β) (s : St) :
    (m >>= f) s = match m s with
      | .ret a s1 => f a s1
      | .abort s1 => .abort s1 := rfl

theorem HandleDistribute_bind {β : Type} (cx : Ctx) (E : HDEnv) (h : daos_handle_t)
    (t : handleType) (f : daos_handle_t → Prog β) (s : St) :
    (HandleDistribute cx E h t >>= f) s
      = match hdVal cx E h t s.g with
        | some h1 => f h1 { g := s.g, trace := s.trace ++ hdTrace cx E h t s.g }
        | none => .abort { g := s.g, trace := s.trace ++ hdTrace cx E h t s.g } := by
  rw [bind_run, HandleDistribute_run]
  cases hdVal cx E h t s.g <;> rfl

/-! ## Create and open: who issues the privileged call -/

theorem any_of_filter_nil {α : Type} (p : α → Bool) (l : List α) (h : l.filter p = []) :
    l.any p = false := by
  rw [List.any_eq_false]
  intro x hx hp
  have : x ∈ l.filter p := List.mem_filter.mpr ⟨hx, hp⟩
  rw [h] at this
  exact absurd this (List.not_mem_nil x)

theorem any_of_filter_cons {α : Type} (p : α → Bool) (l : List α) (a : α) (t : List α)
    (h : l.filter p = a :: t) : l.any p = true := by
  rw [List.any_eq_true]
  have : a ∈ l.filter p := by rw [h]; exact List.mem_cons_self a t
  exact ⟨a, (List.mem_filter.mp this).1, (List.mem_filter.mp this).2⟩

theorem ranksThat_zero (p : Nat → Bool) (h0 : p 0 = true) (hp : ∀ r, r ≠ 0 → p r = false) :
    ∀ P, 0 < P → ranksThat P p = [0] := by
  intro P
  induction P with
  | zero => intro h; exact absurd h (Nat.lt_irrefl 0)
  | succ n ih =>
    intro _
    unfold ranksThat at *
    rw [List.range_succ, List.filter_append]
    rcases Nat.eq_zero_or_pos n with hn | hn
    · subst hn
      simp [h0]
    · rw [ih hn]
      simp [hp n (Nat.pos_iff_ne_zero.mp hn)]

/-- The privileged calls and the entries into `HandleDistribute` in the traces
of `DAOS_Create` and `DAOS_Open`. -/
theorem create_open_calls (D : Daos) (cx : Ctx) (Ec : CreateEnv) (Eo : OpenEnv)
    (o : DAOS_options_t) (name : List Nat) (g : Globals) :
    (DAOS_Create D cx Ec o name { g := g, trace := [] }).st.trace.filter Event.isArrayCreate
        = (if cx.filePerProc = true ∨ cx.rank = 0 then
            [.engine (.daos_array_create g.coh (gen_oid D g name) 1 o.chunk_size)
              Ec.daos_array_create.1]
           else [])
    ∧ (DAOS_Open D cx Eo name { g := g, trace := [] }).st.trace.filter Event.isArrayOpen
        = (if cx.filePerProc = true ∨ cx.rank = 0 then
            [.engine (.daos_array_open g.coh (gen_oid D g name) .DAOS_OO_RW)
              Eo.daos_array_open.rc]
           else [])
    ∧ (DAOS_Create D cx Ec o name { g := g, trace := [] }).st.trace.filter Event.isEnterHD
        = (if cx.filePerProc = false ∧ ¬ (cx.rank = 0 ∧ Ec.daos_array_create.1 < 0) then
            [.enter_HandleDistribute .ARRAY_HANDLE]
           else [])
    ∧ (DAOS_Open D cx Eo name { g := g, trace := [] }).st.trace.filter Event.isEnterHD
        = (if cx.filePerProc = false
              ∧ ¬ (cx.rank = 0 ∧ (Eo.daos_array_open.rc < 0 ∨ Eo.daos_array_open.cell_size ≠ 1))
           then [.enter_HandleDistribute .ARRAY_HANDLE]
           else []) := by
  simp only [DAOS_Create, DAOS_Open, DCHECK, MPI_CHECK,
    ERR, GERR, bind_assoc_prog, pure_bind_prog, emit_bind, getG_bind, modifyG_bind,
    abort_bind, ite_bind, ite_run, abort_run, run_pure, emit_run, modifyG_run,
    HandleDistribute_bind]
  refine ⟨?_, ?_, ?_, ?_⟩ <;>
  split_ifs <;> (try split) <;>
  simp_all [Res.st, List.filter_append, hdTrace_enter, hdTrace_arrayCreate, hdTrace_arrayOpen,
    Event.isArrayCreate, Event.isArrayOpen, Event.isEnterHD, List.filter]

/-- Claim C1 (as amended): for every file name, rank and addressing mode, and
whatever the engine answers, `DAOS_Create` issues `daos_array_create` (cell
size 1, the configured chunk size) exactly when addressing is exclusive or the
rank is 0, and `DAOS_Open` issues `daos_array_open` read-write under the same
condition.  `HandleDistribute` is entered, once and for the array handle,
exactly when addressing is shared and the run was not aborted before it: that
is, unless on rank 0 the privileged call reported a negative status (or, in
`DAOS_Open`, a cell size other than 1).  Hence in exclusive mode no process
enters the distribution; in shared mode with `P` processes rank 0 is the only
one that issues the privileged call, and every process enters one distribution
when the privileged call of rank 0 is not fatal. -/
theorem create_open_leader (D : Daos) (o : DAOS_options_t) (name : List Nat) :
    (∀ (cx : Ctx) (Ec : CreateEnv) (Eo : OpenEnv) (g : Globals),
      (DAOS_Create D cx Ec o name { g := g, trace := [] }).st.trace.filter Event.isArrayCreate
          = (if cx.filePerProc = true ∨ cx.rank = 0 then
              [.engine (.daos_array_create g.coh (gen_oid D g name) 1 o.chunk_size)
                Ec.daos_array_create.1]
             else [])
      ∧ (DAOS_Open D cx Eo name { g := g, trace := [] }).st.trace.filter Event.isArrayOpen
          = (if cx.filePerProc = true ∨ cx.rank = 0 then
              [.engine (.daos_array_open g.coh (gen_oid D g name) .DAOS_OO_RW)
                Eo.daos_array_open.rc]
             else [])
      ∧ (DAOS_Create D cx Ec o name { g := g, trace := [] }).st.trace.filter Event.isEnterHD
          = (if cx.filePerProc = false ∧ ¬ (cx.rank = 0 ∧ Ec.daos_array_create.1 < 0) then
              [.enter_HandleDistribute .ARRAY_HANDLE]
             else [])
      ∧ (DAOS_Open D cx Eo name { g := g, trace := [] }).st.trace.filter Event.isEnterHD
          = (if cx.filePerProc = false
                ∧ ¬ (cx.rank = 0
                      ∧ (Eo.daos_array_open.rc < 0 ∨ Eo.daos_array_open.cell_size ≠ 1))
             then [.enter_HandleDistribute .ARRAY_HANDLE]
             else []))
    ∧ (∀ (r : Nat) (Ec : CreateEnv) (Eo : OpenEnv) (g : Globals),
        (DAOS_Create D ⟨r, true⟩ Ec o name { g := g, trace := [] }).st.trace.filter
            Event.isEnterHD = []
        ∧ (DAOS_Open D ⟨r, true⟩ Eo name { g := g, trace := [] }).st.trace.filter
            Event.isEnterHD = [])
    ∧ (∀ (P : Nat) (Ec : Nat → CreateEnv) (Eo : Nat → OpenEnv) (g : Nat → Globals), 0 < P →
        ranksThat P (fun r =>
            (DAOS_Create D ⟨r, false⟩ (Ec r) o name { g := g r, trace := [] }).st.trace.any
              Event.isArrayCreate) = [0]
        ∧ ranksThat P (fun r =>
            (DAOS_Open D ⟨r, false⟩ (Eo r) name { g := g r, trace := [] }).st.trace.any
              Event.isArrayOpen) = [0])
    ∧ (∀ (Ec : Nat → CreateEnv) (Eo : Nat → OpenEnv) (g : Nat → Globals),
        (0 ≤ (Ec 0).daos_array_create.1 →
          ∀ r, (DAOS_Create D ⟨r, false⟩ (Ec r) o name { g := g r, trace := [] }).st.trace.filter
                Event.isEnterHD = [.enter_HandleDistribute .ARRAY_HANDLE])
        ∧ (0 ≤ (Eo 0).daos_array_open.rc → (Eo 0).daos_array_open.cell_size = 1 →
          ∀ r, (DAOS_Open D ⟨r, false⟩ (Eo r) name { g := g r, trace := [] }).st.trace.filter
                Event.isEnterHD = [.enter_HandleDistribute .ARRAY_HANDLE])) := by
  refine ⟨fun cx Ec Eo g => create_open_calls D cx Ec Eo o name g, ?_, ?_, ?_⟩
  · intro r Ec Eo g
    have h := create_open_calls D ⟨r, true⟩ Ec Eo o name g
    exact ⟨by simpa using h.2.2.1, by simpa using h.2.2.2⟩
  · intro P Ec Eo g hP
    constructor
    · apply ranksThat_zero _ _ _ P hP
      · have h := (create_open_calls D ⟨0, false⟩ (Ec 0) (Eo 0) o name (g 0)).1
        exact any_of_filter_cons _ _ _ _ (by simpa using h)
      · intro r hr
        have h := (create_open_calls D ⟨r, false⟩ (Ec r) (Eo r) o name (g r)).1
        exact any_of_filter_nil _ _ (by simpa [hr] using h)
    · apply ranksThat_zero _ _ _ P hP
      · have h := (create_open_calls D ⟨0, false⟩ (Ec 0) (Eo 0) o name (g 0)).2.1
        exact any_of_filter_cons _ _ _ _ (by simpa using h)
      · intro r hr
        have h := (create_open_calls D ⟨r, false⟩ (Ec r) (Eo r) o name (g r)).2.1
        exact any_of_filter_nil _ _ (by simpa [hr] using h)
  · intro Ec Eo g
    constructor
    · intro h0 r
      have h := (create_open_calls D ⟨r, false⟩ (Ec r) (Eo r) o name (g r)).2.2.1
      rw [h, if_pos]
      refine ⟨rfl, ?_⟩
      rintro ⟨hr, hlt⟩
      simp only at hr
      subst hr
      omega
    · intro h0 h1 r
      have h := (create_open_calls D ⟨r, false⟩ (Ec r) (Eo r) o name (g r)).2.2.2
      rw [h, if_pos]
      refine ⟨rfl, ?_⟩
      rintro ⟨hr, hlt⟩
      simp only at hr
      subst hr
      rcases hlt with hlt | hlt
      · omega
      · exact hlt h1


/-- Claim C1 (as amended), evaluated with four processes in shared mode whose
calls all succeed: rank 0 alone creates, rank 0 alone opens, and rank 2
enters one distribution in each. -/
theorem create_open_leader_witness :
    (ranksThat 4 (fun r =>
        (DAOS_Create sampleDaos ⟨r, false⟩ sampleCreateEnv sampleOpts sampleName
          { g := sampleGlobals, trace := [] }).st.trace.any Event.isArrayCreate) = [0]
      ∧ ranksThat 4 (fun r =>
        (DAOS_Open sampleDaos ⟨r, false⟩ sampleOpenEnv sampleName
          { g := sampleGlobals, trace := [] }).st.trace.any Event.isArrayOpen) = [0])
    ∧ (DAOS_Create sampleDaos ⟨2, false⟩ sampleCreateEnv sampleOpts sampleName
          { g := sampleGlobals, trace := [] }).st.trace.filter Event.isEnterHD
        = [.enter_HandleDistribute .ARRAY_HANDLE]
    ∧ (DAOS_Open sampleDaos ⟨2, false⟩ sampleOpenEnv sampleName
          { g := sampleGlobals, trace := [] }).st.trace.filter Event.isEnterHD
        = [.enter_HandleDistribute .ARRAY_HANDLE] :=
  ⟨(create_open_leader sampleDaos sampleOpts sampleName).2.2.1 4 (fun _ => sampleCreateEnv)
      (fun _ => sampleOpenEnv) (fun _ => sampleGlobals) (by decide),
   ((create_open_leader sampleDaos sampleOpts sampleName).2.2.2 (fun _ => sampleCreateEnv)
      (fun _ => sampleOpenEnv) (fun _ => sampleGlobals)).1 (by decide) 2,
   ((create_open_leader sampleDaos sampleOpts sampleName).2.2.2 (fun _ => sampleCreateEnv)
      (fun _ => sampleOpenEnv) (fun _ => sampleGlobals)).2 (by decide) (by decide) 2⟩

/-- Claim C1 as stated fails: on rank 0 in shared mode, when `daos_array_create`
reports -1, `DAOS_Create` aborts after that call, so addressing is shared and
yet `HandleDistribute` is not invoked. -/
theorem create_open_leader_counterexample :
    ¬ (Event.enter_HandleDistribute .ARRAY_HANDLE ∈
          (DAOS_Create sampleDaos ⟨0, false⟩ failingCreateEnv sampleOpts sampleName
            sampleSt).st.trace
        ↔ (⟨0, false⟩ : Ctx).filePerProc = false) := by
  decide


/-! ## Object identity -/

theorem take_length_takeWhile (p : Nat → Bool) (l : List Nat) :
    l.take (l.takeWhile p).length = l.takeWhile p := by
  induction l with
  | nil => rfl
  | cons a t ih =>
    by_cases h : p a
    · simp [List.takeWhile_cons, h, ih]
    · simp [List.takeWhile_cons, h]

theorem oidsAddressed_append (l1 l2 : List Event) :
    oidsAddressed (l1 ++ l2) = oidsAddressed l1 ++ oidsAddressed l2 := by
  simp [oidsAddressed, List.filterMap_append]

/-- Claim C10: `gen_oid` is the engine normalisation, with the configured object
class, the flag set and argument 0, of the identifier whose low word is
`d_hash_murmur64` of the bytes of the name (those before the terminator) under
the seed `0xDEAD10CC` and whose high word is 0.  It reads nothing but the name
and `objectClass`: two states with the same object class give the same
identifier, whatever the handles and the initialisation flag.  Every
`daos_array_create` and `daos_array_open` that `DAOS_Create`, `DAOS_Open`,
`DAOS_Access`, `DAOS_Delete` and `DAOS_GetFileSize` issue, on any rank and in
either addressing mode, addresses that identifier. -/
theorem gen_oid_deterministic (D : Daos) (name : List Nat) (g : Globals) :
    gen_oid D g name
        = D.daos_array_generate_id
            { lo := D.d_hash_murmur64 (name.takeWhile (fun b => b != 0))
                      (name.takeWhile (fun b => b != 0)).length 0xDEAD10CC,
              hi := 0 }
            g.objectClass true 0
    ∧ (∀ g1 : Globals, g1.objectClass = g.objectClass → gen_oid D g1 name = gen_oid D g name)
    ∧ (∀ cx E o, ∀ x ∈ oidsAddressed (DAOS_Create D cx E o name ⟨g, []⟩).st.trace,
        x = gen_oid D g name)
    ∧ (∀ cx E, ∀ x ∈ oidsAddressed (DAOS_Open D cx E name ⟨g, []⟩).st.trace,
        x = gen_oid D g name)
    ∧ (∀ E, ∀ x ∈ oidsAddressed (DAOS_Access D E name ⟨g, []⟩).st.trace,
        x = gen_oid D g name)
    ∧ (∀ E, ∀ x ∈ oidsAddressed (DAOS_Delete D E name ⟨g, []⟩).st.trace,
        x = gen_oid D g name)
    ∧ (∀ cx E, ∀ x ∈ oidsAddressed (DAOS_GetFileSize D cx E name ⟨g, []⟩).st.trace,
        x = gen_oid D g name) := by
  refine ⟨?_, ?_, ?_, ?_, ?_, ?_, ?_⟩
  · simp [gen_oid, strlen, take_length_takeWhile, IOR_DAOS_MUR_SEED]
  · intro g1 h
    simp [gen_oid, h]
  all_goals
    intros
    revert ‹_ ∈ _›
    simp only [DAOS_Create, DAOS_Open, DAOS_Access, DAOS_Delete, DAOS_GetFileSize, DCHECK,
      MPI_CHECK, ERR, GERR, bind_assoc_prog, pure_bind_prog, emit_bind, getG_bind,
      modifyG_bind, abort_bind, ite_bind, ite_run, abort_run, run_pure, emit_run, modifyG_run,
      HandleDistribute_bind]
    split_ifs <;> (try split) <;>
    (try simp only [Res.st, oidsAddressed_append, hdTrace_oids, List.append_nil,
      List.nil_append]) <;>
    simp [oidsAddressed, Event.oid?]


/-! ## Failure of an engine call -/

theorem hdTrace_ok (cx : Ctx) (E : HDEnv) (h : daos_handle_t) (t : handleType)
    (g : Globals) (hv : hdVal cx E h t g ≠ none) :
    (hdTrace cx E h t g).any Event.isFailure = false := by
  cases hf : (hdTrace cx E h t g).any Event.isFailure
  · rfl
  · exact absurd (hdTrace_failure cx E h t g hf) hv

/-- In `DAOS_Create`, `DAOS_Open`, `DAOS_Xfer`, `DAOS_Close`, `DAOS_Delete` and
`DAOS_GetFileSize` an engine call that reports a negative status aborts the
run. -/
theorem file_ops_fail_stop (D : Daos) (cx : Ctx) (g : Globals) (name : List Nat) :
    (∀ E o, (DAOS_Create D cx E o name ⟨g, []⟩).st.trace.any Event.isFailure = true →
        (DAOS_Create D cx E o name ⟨g, []⟩).aborted = true)
    ∧ (∀ E, (DAOS_Open D cx E name ⟨g, []⟩).st.trace.any Event.isFailure = true →
        (DAOS_Open D cx E name ⟨g, []⟩).aborted = true)
    ∧ (∀ rc access buffer length off,
        (DAOS_Xfer rc access buffer length off ⟨g, []⟩).st.trace.any Event.isFailure = true →
        (DAOS_Xfer rc access buffer length off ⟨g, []⟩).aborted = true)
    ∧ (∀ rc, (DAOS_Close rc ⟨g, []⟩).st.trace.any Event.isFailure = true →
        (DAOS_Close rc ⟨g, []⟩).aborted = true)
    ∧ (∀ E, (DAOS_Delete D E name ⟨g, []⟩).st.trace.any Event.isFailure = true →
        (DAOS_Delete D E name ⟨g, []⟩).aborted = true)
    ∧ (∀ E, (DAOS_GetFileSize D cx E name ⟨g, []⟩).st.trace.any Event.isFailure = true →
        (DAOS_GetFileSize D cx E name ⟨g, []⟩).aborted = true) := by
  refine ⟨?_, ?_, ?_, ?_, ?_, ?_⟩
  all_goals
    intros
    revert ‹_ = true›
    simp only [DAOS_Create, DAOS_Open, DAOS_Xfer, DAOS_Close, DAOS_Delete, DAOS_GetFileSize,
      DCHECK, MPI_CHECK, ERR, GERR, bind_assoc_prog, pure_bind_prog, emit_bind, getG_bind,
      modifyG_bind, abort_bind, ite_bind, ite_run, abort_run, run_pure, emit_run, modifyG_run,
      HandleDistribute_bind]
    split_ifs <;> (try split) <;>
    simp_all [Res.st, Res.aborted, hdTrace_ok, Event.isFailure]


/-! ## Programs do not read the trace -/

theorem prepend_prepend {α : Type} (p q : List Event) (r : Res α) :
    (r.prepend q).prepend p = r.prepend (p ++ q) := by
  cases r <;> simp [Res.prepend]

theorem framed_pure {α : Type} (a : α) : Framed (pure a : Prog α) := by
  intro s
  simp [Res.prepend]

theorem framed_emit (e : Event) : Framed (emit e) := by
  intro s
  simp [Res.prepend]

theorem framed_modifyG (f : Globals → Globals) : Framed (modifyG f) := by
  intro s
  simp [Res.prepend]

theorem framed_abort {α : Type} : Framed (MPI_Abort : Prog α) := by
  intro s
  simp [Res.prepend]

theorem framed_ite {α : Type} (c : Prop) [Decidable c] (m1 m2 : Prog α)
    (h1 : Framed m1) (h2 : Framed m2) : Framed (if c then m1 else m2) := by
  split
  · exact h1
  · exact h2

theorem framed_bind {α β : Type} (m : Prog α) (f : α → Prog β)
    (hm : Framed m) (hf : ∀ a, Framed (f a)) : Framed (m >>= f) := by
  intro s
  rw [bind_run, bind_run, hm s]
  cases m { g := s.g, trace := [] } with
  | ret a s1 =>
    simp only [Res.prepend]
    rw [hf a { g := s1.g, trace := s.trace ++ s1.trace }, hf a s1]
    cases f a { g := s1.g, trace := [] } <;> simp [Res.prepend]
  | abort s1 => rfl

theorem framed_getG_bind {β : Type} (f : Globals → Prog β) (hf : ∀ g, Framed (f g)) :
    Framed (getG >>= f) := by
  intro s
  rw [getG_bind, getG_bind]
  exact hf s.g s

theorem framed_DCHECK (rc : Int) : Framed (DCHECK rc) := by
  unfold DCHECK
  exact framed_ite _ _ _ framed_abort (framed_pure _)

/-- A framed program followed by `f`, run from any state. -/
theorem framed_bind_run {α β : Type} (m : Prog α) (f : α → Prog β) (hm : Framed m) (s : St) :
    (m >>= f) s
      = match m { g := s.g, trace := [] } with
        | .ret a s1 => f a { g := s1.g, trace := s.trace ++ s1.trace }
        | .abort s1 => .abort { g := s1.g, trace := s.trace ++ s1.trace } := by
  rw [bind_run, hm s]
  cases m { g := s.g, trace := [] } <;> rfl

theorem framed_Init_rank0 (D : Daos) (E : InitEnv) (o : DAOS_options_t) :
    Framed (DAOS_Init_rank0 D E o) := by
  unfold DAOS_Init_rank0
  cases E.daos_rank_list_parse with
  | none =>
    exact framed_bind _ _ (framed_DCHECK _) (fun _ => framed_abort)
  | some svcl =>
    dsimp only
    repeat' first
      | exact framed_pure _
      | exact framed_emit _
      | exact framed_modifyG _
      | exact framed_abort
      | exact framed_DCHECK _
      | apply framed_getG_bind
      | apply framed_bind
      | apply framed_ite
      | intro _

/-- The rank-0 block of `DAOS_Init` extends the trace by `initRank0Trace` and
leaves the variables `initRank0Globals`; it ends normally when `initRank0Ok`. -/
theorem DAOS_Init_rank0_bind {β : Type} (D : Daos) (E : InitEnv) (o : DAOS_options_t)
    (f : Unit → Prog β) (s : St) :
    (DAOS_Init_rank0 D E o >>= f) s
      = if initRank0Ok D E o s.g = true then
          f () { g := initRank0Globals D E o s.g, trace := s.trace ++ initRank0Trace D E o s.g }
        else
          .abort { g := initRank0Globals D E o s.g,
                   trace := s.trace ++ initRank0Trace D E o s.g } := by
  rw [framed_bind_run _ _ (framed_Init_rank0 D E o)]
  unfold initRank0Ok initRank0Globals initRank0Trace
  cases DAOS_Init_rank0 D E o { g := s.g, trace := [] } <;> simp [Res.st, Res.aborted]


/-- The rank-0 block of `DAOS_Init`, call by call: the container calls it
issues, when it ends normally, and that a negative status other than
`-DER_NONEXIST` from the container open aborts it. -/
theorem initRank0_facts (D : Daos) (E : InitEnv) (o : DAOS_options_t) (g : Globals) :
    (initRank0Trace D E o g).filter Event.isContBootstrap
        = (if 0 ≤ E.uuid_parse_pool.1 ∧ E.daos_rank_list_parse ≠ none
              ∧ 0 ≤ E.daos_pool_connect.1 ∧ 0 ≤ E.uuid_parse_cont.1 then
            bootstrapCalls D E
           else [])
    ∧ (initRank0Ok D E o g = true ↔
        0 ≤ E.uuid_parse_pool.1 ∧ E.daos_rank_list_parse ≠ none
        ∧ 0 ≤ E.daos_pool_connect.1 ∧ 0 ≤ E.uuid_parse_cont.1
        ∧ 0 ≤ bootstrapStatus D E)
    ∧ ((initRank0Trace D E o g).any (Event.isFailureBut D) = true →
        initRank0Ok D E o g = false) := by
  cases hsv : E.daos_rank_list_parse <;>
  simp only [initRank0Ok, initRank0Trace, DAOS_Init_rank0, hsv, bootstrapCalls,
    bootstrapStatus,
    DCHECK, MPI_CHECK, ERR, GERR, bind_assoc_prog, pure_bind_prog, emit_bind, getG_bind,
    modifyG_bind, abort_bind, abort_bind_fun, ite_bind, ite_run, abort_run, run_pure,
    emit_run, modifyG_run] <;>
  split_ifs <;>
  simp_all [Res.st, Res.aborted, Event.isContBootstrap, Event.isContOpen, Event.isContCreate,
    Event.isFailureBut, List.filter] <;>
  omega

theorem initRank0_contBootstrap (D : Daos) (E : InitEnv) (o : DAOS_options_t) (g : Globals) :
    (initRank0Trace D E o g).filter Event.isContBootstrap
        = (if 0 ≤ E.uuid_parse_pool.1 ∧ E.daos_rank_list_parse ≠ none
              ∧ 0 ≤ E.daos_pool_connect.1 ∧ 0 ≤ E.uuid_parse_cont.1 then
            bootstrapCalls D E
           else []) :=
  (initRank0_facts D E o g).1

theorem initRank0Ok_iff (D : Daos) (E : InitEnv) (o : DAOS_options_t) (g : Globals) :
    initRank0Ok D E o g = true ↔
        0 ≤ E.uuid_parse_pool.1 ∧ E.daos_rank_list_parse ≠ none
        ∧ 0 ≤ E.daos_pool_connect.1 ∧ 0 ≤ E.uuid_parse_cont.1
        ∧ 0 ≤ bootstrapStatus D E :=
  (initRank0_facts D E o g).2.1

theorem initRank0_ok (D : Daos) (E : InitEnv) (o : DAOS_options_t) (g : Globals)
    (h : initRank0Ok D E o g = true) :
    (initRank0Trace D E o g).any (Event.isFailureBut D) = false := by
  cases hf : (initRank0Trace D E o g).any (Event.isFailureBut D)
  · rfl
  · have := (initRank0_facts D E o g).2.2 hf
    rw [h] at this
    exact absurd this (by decide)

/-! ## Container bootstrap -/

/-- The container calls in the trace of `DAOS_Init`, and when it aborts. -/
theorem init_trace (D : Daos) (cx : Ctx) (E : InitEnv) (o : DAOS_options_t) (g : Globals) :
    (cx.rank = 0 →
      (DAOS_Init D cx E o ⟨g, []⟩).st.trace.filter Event.isContBootstrap
        = (if reachesContOpen D E o g then bootstrapCalls D E else []))
    ∧ (cx.rank = 0 → reachesContOpen D E o g → bootstrapStatus D E < 0 →
        (DAOS_Init D cx E o ⟨g, []⟩).aborted = true)
    ∧ (cx.rank ≠ 0 →
        (DAOS_Init D cx E o ⟨g, []⟩).st.trace.filter Event.isContBootstrap = []) := by
  by_cases h0 : cx.rank = 0 <;> cases hoc : o.oclass <;>
  simp only [DAOS_Init, h0, hoc, reachesContOpen,
    DCHECK, MPI_CHECK, ERR, GERR, bind_assoc_prog, pure_bind_prog, emit_bind, getG_bind,
    modifyG_bind, abort_bind, abort_bind_fun, ite_bind, ite_run, abort_run, run_pure,
    emit_run, modifyG_run, HandleDistribute_bind, DAOS_Init_rank0_bind, if_true, if_false,
    ne_eq, not_true_eq_false, not_false_eq_true] <;>
  refine ⟨?_, ?_, ?_⟩ <;>
  split_ifs <;> (try split) <;> (try split) <;>
  simp_all [Res.st, Res.aborted, List.filter_append, hdTrace_contBootstrap,
    initRank0_contBootstrap, initRank0Ok_iff, Event.isContBootstrap, Event.isContOpen,
    Event.isContCreate, List.filter] <;>
  omega


theorem filter_create_of_bootstrap (l : List Event) :
    l.filter Event.isContCreate = (l.filter Event.isContBootstrap).filter Event.isContCreate := by
  rw [List.filter_filter]
  congr 1
  funext e
  cases h : e.isContCreate <;> simp [Event.isContBootstrap, h]

theorem filter_open_of_bootstrap (l : List Event) :
    l.filter Event.isContOpen = (l.filter Event.isContBootstrap).filter Event.isContOpen := by
  rw [List.filter_filter]
  congr 1
  funext e
  cases h : e.isContOpen <;> simp [Event.isContBootstrap, h]

theorem isFailure_of_isFailureBut (D : Daos) (e : Event)
    (h : e.isFailureBut D = true) : e.isFailure = true := by
  cases e with
  | engine c rc =>
    cases c <;> simp_all [Event.isFailureBut, Event.isFailure]
  | _ => simp [Event.isFailureBut] at h

theorem hdTrace_okBut (D : Daos) (cx : Ctx) (E : HDEnv) (h : daos_handle_t) (t : handleType)
    (g : Globals) (hv : hdVal cx E h t g ≠ none) :
    (hdTrace cx E h t g).any (Event.isFailureBut D) = false := by
  have h1 := hdTrace_ok cx E h t g hv
  rw [List.any_eq_false] at h1 ⊢
  intro x hx hb
  exact h1 x hx (isFailure_of_isFailureBut D x hb)

/-- In `DAOS_Fini` an engine call that reports a negative status aborts the run;
in `DAOS_Init` it does too, unless it is a `daos_cont_open` that reports
`-DER_NONEXIST`. -/
theorem init_fini_fail_stop (D : Daos) (cx : Ctx) (g : Globals) (o : DAOS_options_t) :
    (∀ E, (DAOS_Fini cx E o ⟨g, []⟩).st.trace.any Event.isFailure = true →
        (DAOS_Fini cx E o ⟨g, []⟩).aborted = true)
    ∧ (∀ E, (DAOS_Init D cx E o ⟨g, []⟩).st.trace.any (Event.isFailureBut D) = true →
        (DAOS_Init D cx E o ⟨g, []⟩).aborted = true) := by
  refine ⟨?_, ?_⟩
  · intro E
    by_cases h0 : cx.rank = 0 <;> cases hd : o.destroy <;>
    simp only [DAOS_Fini, h0, hd,
      DCHECK, MPI_CHECK, ERR, GERR, bind_assoc_prog, pure_bind_prog, emit_bind, getG_bind,
      modifyG_bind, abort_bind, abort_bind_fun, ite_bind, ite_run, abort_run, run_pure,
      emit_run, modifyG_run, HandleDistribute_bind, if_true, if_false, ne_eq,
      not_true_eq_false, not_false_eq_true, Bool.false_eq_true] <;>
    split_ifs <;>
    simp_all [Res.st, Res.aborted, Event.isFailure]
  · intro E
    by_cases h0 : cx.rank = 0 <;> cases hoc : o.oclass <;>
    simp only [DAOS_Init, h0, hoc,
      DCHECK, MPI_CHECK, ERR, GERR, bind_assoc_prog, pure_bind_prog, emit_bind, getG_bind,
      modifyG_bind, abort_bind, abort_bind_fun, ite_bind, ite_run, abort_run, run_pure,
      emit_run, modifyG_run, HandleDistribute_bind, DAOS_Init_rank0_bind, if_true, if_false,
      ne_eq, not_true_eq_false, not_false_eq_true] <;>
    split_ifs <;> (try split) <;> (try split) <;>
    simp_all [Res.st, Res.aborted, hdTrace_okBut, initRank0_ok, Event.isFailureBut]


/-- `DAOS_Access` does not abort when its open or its close reports a negative
status: it returns that status. -/
theorem access_returns_status (D : Daos) (E : AccessEnv) (name : List Nat) (g : Globals) :
    (DAOS_Access D E name ⟨g, []⟩).st.trace.any Event.isFailure = true →
      (DAOS_Access D E name ⟨g, []⟩).aborted = false
      ∧ ∃ rc : Int, rc < 0 ∧ (DAOS_Access D E name ⟨g, []⟩).val = some rc := by
  simp only [DAOS_Access,
    DCHECK, MPI_CHECK, ERR, GERR, bind_assoc_prog, pure_bind_prog, emit_bind, getG_bind,
    modifyG_bind, abort_bind, abort_bind_fun, ite_bind, ite_run, abort_run, run_pure,
    emit_run, modifyG_run]
  split_ifs <;> simp_all [Res.st, Res.aborted, Res.val, Event.isFailure]

/-- Claim C4: when `DAOS_Open`, `DAOS_Access`, `DAOS_Delete` or
`DAOS_GetFileSize` performs a `daos_array_open` that succeeds (status 0; for
the three that examine the status with `DCHECK`, any status that is not
negative) and reports a cell size other than 1, the operation aborts right
after that open: the trace is the open followed by `MPI_Abort`, nothing is
returned, and no destroy, size query, close or distribution is issued. -/
theorem cell_size_validation (D : Daos) (cx : Ctx) (g : Globals) (name : List Nat)
    (reply : OpenReply) (hcell : reply.cell_size ≠ 1) :
    (∀ hd, (cx.filePerProc = true ∨ cx.rank = 0) → 0 ≤ reply.rc →
        DAOS_Open D cx ⟨reply, hd⟩ name ⟨g, []⟩
          = .abort ⟨{ g with aoh := reply.oh },
              [.engine (.daos_array_open g.coh (gen_oid D g name) .DAOS_OO_RW) reply.rc,
               .MPI_Abort]⟩)
    ∧ (∀ rcClose, reply.rc = 0 →
        DAOS_Access D ⟨reply, rcClose⟩ name ⟨g, []⟩
          = .abort ⟨{ g with aoh := reply.oh },
              [.engine (.daos_array_open g.coh (gen_oid D g name) .DAOS_OO_RO) reply.rc,
               .MPI_Abort]⟩)
    ∧ (∀ rcDestroy rcClose, g.daos_initialized = true → 0 ≤ reply.rc →
        DAOS_Delete D ⟨reply, rcDestroy, rcClose⟩ name ⟨g, []⟩
          = .abort ⟨{ g with aoh := reply.oh },
              [.engine (.daos_array_open g.coh (gen_oid D g name) .DAOS_OO_RW) reply.rc,
               .MPI_Abort]⟩)
    ∧ (∀ getSize rcClose uninit bcastIn, g.daos_initialized = true →
        (cx.filePerProc = true ∨ cx.rank = 0) → 0 ≤ reply.rc →
        DAOS_GetFileSize D cx ⟨reply, getSize, rcClose, uninit, bcastIn⟩ name ⟨g, []⟩
          = .abort ⟨{ g with aoh := reply.oh },
              [.engine (.daos_array_open g.coh (gen_oid D g name) .DAOS_OO_RO) reply.rc,
               .MPI_Abort]⟩) := by
  refine ⟨?_, ?_, ?_, ?_⟩
  all_goals
    intros
    simp only [DAOS_Open, DAOS_Access, DAOS_Delete, DAOS_GetFileSize,
      DCHECK, MPI_CHECK, ERR, GERR, bind_assoc_prog, pure_bind_prog, emit_bind, getG_bind,
      modifyG_bind, abort_bind, abort_bind_fun, ite_bind, ite_run, abort_run, run_pure,
      emit_run, modifyG_run, HandleDistribute_bind]
    split_ifs <;> simp_all

/-- Claim C4, evaluated on an open that succeeds with cell size 2: open,
access, delete and size query all end in the abort that follows the open. -/
theorem cell_size_validation_witness :
    (DAOS_Open sampleDaos ⟨0, false⟩ ⟨badCellOpenReply, sampleHD⟩ sampleName
        { g := sampleGlobals, trace := [] }).aborted = true
    ∧ (DAOS_Access sampleDaos ⟨badCellOpenReply, 0⟩ sampleName
        { g := sampleGlobals, trace := [] }).aborted = true
    ∧ DAOS_Delete sampleDaos badCellDeleteEnv sampleName { g := sampleGlobals, trace := [] }
        = .abort ⟨{ sampleGlobals with aoh := ⟨44⟩ },
            [.engine (.daos_array_open ⟨22⟩ (gen_oid sampleDaos sampleGlobals sampleName)
              .DAOS_OO_RW) 0,
             .MPI_Abort]⟩
    ∧ (DAOS_GetFileSize sampleDaos ⟨0, false⟩ ⟨badCellOpenReply, (0, 4096), 0, 0, 0⟩ sampleName
        { g := sampleGlobals, trace := [] }).aborted = true :=
  ⟨congrArg Res.aborted
      ((cell_size_validation sampleDaos ⟨0, false⟩ sampleGlobals sampleName badCellOpenReply
        (by decide)).1 sampleHD (by decide) (by decide)),
   congrArg Res.aborted
      ((cell_size_validation sampleDaos ⟨0, false⟩ sampleGlobals sampleName badCellOpenReply
        (by decide)).2.1 0 (by decide)),
   (cell_size_validation sampleDaos ⟨0, false⟩ sampleGlobals sampleName badCellOpenReply
      (by decide)).2.2.1 0 0 (by decide) (by decide),
   congrArg Res.aborted
      ((cell_size_validation sampleDaos ⟨0, false⟩ sampleGlobals sampleName badCellOpenReply
        (by decide)).2.2.2 (0, 4096) 0 0 0 (by decide) (by decide) (by decide))⟩

/-! ## The size query -/

/-- The runs of `DAOS_GetFileSize` on an initialised process. -/
theorem getFileSize_runs (D : Daos) (cx : Ctx) (E : GetFileSizeEnv) (name : List Nat)
    (g : Globals) (hinit : g.daos_initialized = true) :
    (cx.rank ≠ 0 → cx.filePerProc = false →
        DAOS_GetFileSize D cx E name ⟨g, []⟩
          = .ret E.bcast_size_in ⟨g, [.MPI_Bcast_size 0 E.bcast_size_in]⟩)
    ∧ ((cx.rank = 0 ∨ cx.filePerProc = true) →
        0 ≤ E.daos_array_open.rc → E.daos_array_open.cell_size = 1 →
        0 ≤ E.daos_array_get_size.1 → 0 ≤ E.daos_array_close →
        DAOS_GetFileSize D cx E name ⟨g, []⟩
          = .ret E.daos_array_get_size.2
              ⟨{ g with aoh := ⟨0⟩ },
               [.engine (.daos_array_open g.coh (gen_oid D g name) .DAOS_OO_RO)
                  E.daos_array_open.rc,
                .engine (.daos_array_get_size E.daos_array_open.oh) E.daos_array_get_size.1,
                .engine (.daos_array_close E.daos_array_open.oh) E.daos_array_close]
               ++ (if cx.filePerProc = true then []
                   else [.MPI_Bcast_size 0 E.daos_array_get_size.2])⟩) := by
  refine ⟨?_, ?_⟩
  all_goals
    intros
    simp only [DAOS_GetFileSize,
      DCHECK, MPI_CHECK, ERR, GERR, bind_assoc_prog, pure_bind_prog, emit_bind, getG_bind,
      modifyG_bind, abort_bind, abort_bind_fun, ite_bind, ite_run, abort_run, run_pure,
      emit_run, modifyG_run]
    split_ifs <;> simp_all <;> omega

/-- What rank 0 puts into the size broadcast is the size its query produced,
and it returns that size. -/
theorem getFileSize_root_sent (D : Daos) (E : GetFileSizeEnv) (name : List Nat)
    (g : Globals) (v : Nat) (hinit : g.daos_initialized = true) :
    sizeBroadcast (DAOS_GetFileSize D ⟨0, false⟩ E name ⟨g, []⟩).st.trace = some v →
      v = E.daos_array_get_size.2
      ∧ (DAOS_GetFileSize D ⟨0, false⟩ E name ⟨g, []⟩).val = some v := by
  simp only [DAOS_GetFileSize,
    DCHECK, MPI_CHECK, ERR, GERR, bind_assoc_prog, pure_bind_prog, emit_bind, getG_bind,
    modifyG_bind, abort_bind, abort_bind_fun, ite_bind, ite_run, abort_run, run_pure,
    emit_run, modifyG_run]
  split_ifs <;> simp_all [Res.st, Res.val, sizeBroadcast, List.findSome?]

/-- Claim C8 (as amended): on an initialised adapter `DAOS_Close` passes the
current array handle to `daos_array_close` whatever it is, also when it is the
empty handle (cookie 0) left by a previous close: there is no guard against
the repeated call.  It aborts when that call reports a negative status and
otherwise returns with the handle reset to cookie 0, every other variable
unchanged.  On an adapter that is not initialised it aborts before any engine
call.  After any close that returns, the cookie is 0. -/
theorem close_passes_handle (g : Globals) (rc : Int) :
    (g.daos_initialized = true →
        DAOS_Close rc ⟨g, []⟩
          = (if rc < 0 then
              .abort ⟨g, [.engine (.daos_array_close g.aoh) rc, .MPI_Abort]⟩
             else
              .ret () ⟨{ g with aoh := ⟨0⟩ }, [.engine (.daos_array_close g.aoh) rc]⟩))
    ∧ (g.daos_initialized = true → g.aoh.cookie = 0 →
        Event.engine (.daos_array_close ⟨0⟩) rc ∈ (DAOS_Close rc ⟨g, []⟩).st.trace)
    ∧ (g.daos_initialized = false → DAOS_Close rc ⟨g, []⟩ = .abort ⟨g, [.MPI_Abort]⟩)
    ∧ (∀ s1, DAOS_Close rc ⟨g, []⟩ = .ret () s1 → s1.g.aoh.cookie = 0) := by
  have hrun : DAOS_Close rc ⟨g, []⟩
      = (if g.daos_initialized = true then
          (if rc < 0 then
            .abort ⟨g, [.engine (.daos_array_close g.aoh) rc, .MPI_Abort]⟩
           else
            .ret () ⟨{ g with aoh := ⟨0⟩ }, [.engine (.daos_array_close g.aoh) rc]⟩)
         else .abort ⟨g, [.MPI_Abort]⟩) := by
    simp only [DAOS_Close,
      DCHECK, MPI_CHECK, ERR, GERR, bind_assoc_prog, pure_bind_prog, emit_bind, getG_bind,
      modifyG_bind, abort_bind, abort_bind_fun, ite_bind, ite_run, abort_run, run_pure,
      emit_run, modifyG_run]
    split_ifs <;> simp_all
  refine ⟨?_, ?_, ?_, ?_⟩
  · intro hinit
    rw [hrun, if_pos hinit]
  · intro hinit hcookie
    have haoh : g.aoh = ⟨0⟩ := by
      cases hg : g.aoh
      rw [hg] at hcookie
      simp only at hcookie
      rw [hcookie]
    rw [hrun, if_pos hinit, haoh]
    split_ifs <;> simp [Res.st]
  · intro hinit
    rw [hrun, if_neg (by simp [hinit])]
  · intro s1
    rw [hrun]
    split_ifs <;> simp
    rintro rfl
    rfl

/-- Claim C8 (as amended), evaluated.  On an initialised process whose array
handle is empty the close calls `daos_array_close` on the empty handle and
returns with cookie 0; on a process that is not initialised it aborts at once. -/
theorem close_passes_handle_witness :
    DAOS_Close 0 { g := sampleGlobals, trace := [] }
      = .ret () ⟨sampleGlobals, [.engine (.daos_array_close ⟨0⟩) 0]⟩
    ∧ Event.engine (.daos_array_close ⟨0⟩) 0
        ∈ (DAOS_Close 0 { g := sampleGlobals, trace := [] }).st.trace
    ∧ DAOS_Close 0 { g := uninitGlobals, trace := [] } = .abort ⟨uninitGlobals, [.MPI_Abort]⟩
    ∧ sampleGlobals.aoh.cookie = 0 :=
  ⟨((close_passes_handle sampleGlobals 0).1 (by decide)).trans (by decide),
   (close_passes_handle sampleGlobals 0).2.1 (by decide) (by decide),
   (close_passes_handle uninitGlobals 0).2.2.1 (by decide),
   (close_passes_handle sampleGlobals 0).2.2.2
      ⟨sampleGlobals, [.engine (.daos_array_close ⟨0⟩) 0]⟩ (by decide)⟩

/-- Claim C8 as stated fails: a `DAOS_Close` on an initialised adapter whose
array handle is already empty (cookie 0) neither skips the engine call nor
reports a usage error; it passes the empty handle to `daos_array_close` and
returns. -/
theorem close_passes_handle_counterexample :
    sampleSt.g.daos_initialized = true ∧ sampleSt.g.aoh.cookie = 0
    ∧ Event.engine (.daos_array_close ⟨0⟩) 0 ∈ (DAOS_Close 0 sampleSt).st.trace
    ∧ (DAOS_Close 0 sampleSt).aborted = false := by
  decide

/-- Claim C9 (as amended): for every file name, `DAOS_Delete` on an adapter that
is not initialised aborts at once: the trace is `MPI_Abort` alone, with no
open, destroy or close, and nothing is returned.  On an initialised adapter,
when no call reports a negative status and the open reports cell size 1, it
issues exactly `daos_array_open` read-write on the identifier derived from the
name, `daos_array_destroy` and `daos_array_close` on the handle opened, in
that order, and returns with the array handle reset to cookie 0. -/
theorem delete_sequence (D : Daos) (E : DeleteEnv) (name : List Nat) (g : Globals) :
    (g.daos_initialized = false →
        DAOS_Delete D E name ⟨g, []⟩ = .abort ⟨g, [.MPI_Abort]⟩)
    ∧ (g.daos_initialized = true →
        0 ≤ E.daos_array_open.rc → E.daos_array_open.cell_size = 1 →
        0 ≤ E.daos_array_destroy → 0 ≤ E.daos_array_close →
        DAOS_Delete D E name ⟨g, []⟩
          = .ret () ⟨{ g with aoh := ⟨0⟩ },
              [.engine (.daos_array_open g.coh (gen_oid D g name) .DAOS_OO_RW)
                 E.daos_array_open.rc,
               .engine (.daos_array_destroy E.daos_array_open.oh) E.daos_array_destroy,
               .engine (.daos_array_close E.daos_array_open.oh) E.daos_array_close]⟩) := by
  refine ⟨?_, ?_⟩
  all_goals
    intros
    simp only [DAOS_Delete,
      DCHECK, MPI_CHECK, ERR, GERR, bind_assoc_prog, pure_bind_prog, emit_bind, getG_bind,
      modifyG_bind, abort_bind, abort_bind_fun, ite_bind, ite_run, abort_run, run_pure,
      emit_run, modifyG_run]
    split_ifs <;> simp_all <;> omega

/-- Claim C9 (as amended), evaluated.  On a process that is not initialised the
delete aborts at once; on an initialised one, with answers that all succeed,
it issues open, destroy, close and leaves cookie 0. -/
theorem delete_sequence_witness :
    DAOS_Delete sampleDaos sampleDeleteEnv sampleName { g := uninitGlobals, trace := [] }
      = .abort ⟨uninitGlobals, [.MPI_Abort]⟩
    ∧ DAOS_Delete sampleDaos sampleDeleteEnv sampleName { g := sampleGlobals, trace := [] }
      = .ret () ⟨sampleGlobals,
          [.engine (.daos_array_open ⟨22⟩ (gen_oid sampleDaos sampleGlobals sampleName)
             .DAOS_OO_RW) 0,
           .engine (.daos_array_destroy ⟨44⟩) 0,
           .engine (.daos_array_close ⟨44⟩) 0]⟩ :=
  ⟨(delete_sequence sampleDaos sampleDeleteEnv sampleName uninitGlobals).1 (by decide),
   (delete_sequence sampleDaos sampleDeleteEnv sampleName sampleGlobals).2
    (by decide) (by decide) (by decide) (by decide) (by decide)⟩

/-- Claim C9 as stated fails: on an initialised adapter, when the open succeeds
on an object of cell size 2, no call reports a failure and yet `DAOS_Delete`
issues only the open and aborts; destroy and close are not issued. -/
theorem delete_sequence_counterexample :
    sampleSt.g.daos_initialized = true
    ∧ (DAOS_Delete sampleDaos badCellDeleteEnv sampleName sampleSt).st.trace.any
        Event.isFailure = false
    ∧ (DAOS_Delete sampleDaos badCellDeleteEnv sampleName sampleSt).st.trace
        = [.engine (.daos_array_open ⟨22⟩ (gen_oid sampleDaos sampleGlobals sampleName)
            .DAOS_OO_RW) 0,
           .MPI_Abort]
    ∧ (DAOS_Delete sampleDaos badCellDeleteEnv sampleName sampleSt).st.trace.filter
        Event.isArrayDestroy = [] := by
  decide

/-- Claim C10, evaluated: two states with the same object class but other
handles and another initialisation flag give the same identifier for `"t"`,
and the `daos_array_open` of a delete addresses it. -/
theorem gen_oid_deterministic_witness :
    gen_oid sampleDaos otherGlobals sampleName = gen_oid sampleDaos sampleGlobals sampleName
    ∧ gen_oid sampleDaos sampleGlobals sampleName
        = sampleDaos.daos_array_generate_id
            { lo := sampleDaos.d_hash_murmur64 [116] 1 0xDEAD10CC, hi := 0 } 214 true 0 :=
  ⟨(gen_oid_deterministic sampleDaos sampleName sampleGlobals).2.1 otherGlobals (by decide),
   (gen_oid_deterministic sampleDaos sampleName sampleGlobals).1.trans (by decide)⟩

end IorDaos
